import Mathlib

/-!
Verification of the Azure DevOps MCP server (this repository) against its
natural-language specification.

The TypeScript source is shallowly embedded: JSON values become `JsValue`,
each operation handler (src/azure-devops/operations/*.ts) becomes a function
in the `Op` monad, which records the outbound HTTP requests it issues against
an abstract platform backend and either returns a value or a thrown
exception (`Exn`).  The tool dispatcher (the `CallToolRequestSchema` handler
installed by `setupToolHandlers` in the server entry point) becomes
`handleCallTool`.  Authorization headers and URI-escaping are elided: no
claim depends on them.  JavaScript numbers are modelled as `Int`; every
number any claim touches is integral.
-/

/-- JSON-ish JavaScript runtime values, as far as the server manipulates them. -/
inductive JsValue : Type where
  | undefined : JsValue
  | null : JsValue
  | bool : Bool → JsValue
  | num : Int → JsValue
  | str : String → JsValue
  | arr : List JsValue → JsValue
  | obj : List (String × JsValue) → JsValue
deriving Repr

/-- JavaScript truthiness: `undefined`, `null`, `false`, `0` and `""` are falsy;
arrays and objects (even empty) are truthy. -/
def JsValue.truthy : JsValue → Bool
  | .undefined => false
  | .null => false
  | .bool b => b
  | .num n => n != 0
  | .str s => s ≠ ""
  | .arr _ => true
  | .obj _ => true

/-- Error codes of the protocol SDK used by the dispatcher. -/
inductive ErrorCode : Type where
  | methodNotFound : ErrorCode
  | invalidParams : ErrorCode
deriving Repr, DecidableEq

/-- Exceptions the embedded code can throw.
`axios` is a raw HTTP-transport-library error carrying the optional response
body `message` field (the code reads it as the optional chain
`error.response?.data?.message`) and the transport error message itself;
`azureDevOpsError` is the local platform error class (its source,
`common/errors.ts`, is not under `src/`; modelled from the spec: a single
local error type carrying a human-readable message); `mcpError` is the
protocol error thrown by the dispatcher; `other` is any other runtime
exception (for example a `TypeError`). -/
inductive Exn : Type where
  | axios : Option String → String → Exn
  | azureDevOpsError : String → Exn
  | mcpError : ErrorCode → String → Exn
  | other : String → Exn
deriving Repr

/-- Property read `v.k`: on `undefined`/`null` this is a thrown `TypeError`,
on an object it is the field (or `undefined`), on any other value it is
`undefined` (built-in properties are not modelled; no claim reads one). -/
def JsValue.getField : JsValue → String → Except Exn JsValue
  | .undefined, k => .error (.other ("TypeError: cannot read properties of undefined (reading " ++ k ++ ")"))
  | .null, k => .error (.other ("TypeError: cannot read properties of null (reading " ++ k ++ ")"))
  | .obj fs, k => .ok ((fs.lookup k).getD .undefined)
  | _, _ => .ok .undefined

/-- Index read `v[i]`: a thrown `TypeError` on `undefined`/`null`, the element
(or `undefined`) on an array, the one-character string on a string, and
`undefined` otherwise. -/
def JsValue.index : JsValue → Nat → Except Exn JsValue
  | .undefined, _ => .error (.other "TypeError: cannot read properties of undefined")
  | .null, _ => .error (.other "TypeError: cannot read properties of null")
  | .arr xs, i => .ok (xs.getD i .undefined)
  | .str s, i => .ok (((s.data.get? i).map fun c => .str (String.mk [c])).getD .undefined)
  | _, _ => .ok .undefined

deriving instance BEq for JsValue

/-- The test `v.length === 0` (evaluated in the source only after `v` proved
truthy): true for an empty array or string, looked up on objects, false on
numbers and booleans whose `length` is `undefined`. -/
def JsValue.lengthEqZero : JsValue → Bool
  | .arr xs => xs.isEmpty
  | .str s => s.isEmpty
  | .obj fs => (fs.lookup "length").getD .undefined == .num 0
  | _ => false

/-- The test `v.length > 0` (evaluated in the source only after `v` proved
truthy); comparisons against `undefined` are false in JavaScript. -/
def JsValue.lengthGtZero : JsValue → Bool
  | .arr xs => 0 < xs.length
  | .str s => 0 < s.length
  | .obj fs => match (fs.lookup "length").getD .undefined with
    | .num n => 0 < n
    | _ => false
  | _ => false

mutual
/-- String coercion used by template literals and array `join`. -/
def JsValue.toJsString : JsValue → String
  | .undefined => "undefined"
  | .null => "null"
  | .bool b => if b then "true" else "false"
  | .num n => toString n
  | .str s => s
  | .arr xs => String.intercalate "," (jsStringList xs)
  | .obj _ => "[object Object]"

def jsStringList : List JsValue → List String
  | [] => []
  | x :: xs => x.toJsString :: jsStringList xs
end

mutual
/-- `JSON.stringify`.  The `(·, null, 2)` pretty-printing whitespace of the
source is abstracted away (no claim depends on the whitespace); `undefined`
is rendered as `null` as it is inside JSON arrays. -/
def jsonStringify : JsValue → String
  | .undefined => "null"
  | .null => "null"
  | .bool b => if b then "true" else "false"
  | .num n => toString n
  | .str s => "\"" ++ s ++ "\""
  | .arr xs => "[" ++ String.intercalate "," (jsonStringifyList xs) ++ "]"
  | .obj fs => "\x7b" ++ String.intercalate "," (jsonStringifyFields fs) ++ "\x7d"

def jsonStringifyList : List JsValue → List String
  | [] => []
  | x :: xs => jsonStringify x :: jsonStringifyList xs

def jsonStringifyFields : List (String × JsValue) → List String
  | [] => []
  | (k, v) :: fs => ("\"" ++ k ++ "\":" ++ jsonStringify v) :: jsonStringifyFields fs
end

/-- Prefix test on character lists (structurally recursive, so that closed
instances evaluate inside proofs). -/
def charsIsPrefix : List Char → List Char → Bool
  | [], _ => true
  | _ :: _, [] => false
  | c :: cs, d :: ds => c == d && charsIsPrefix cs ds

/-- `pat.startsWith(...)` / prefix test on strings. -/
def strIsPrefixOf (pat s : String) : Bool := charsIsPrefix pat.data s.data

/-- `s.includes(pat)`: substring containment. -/
def strContains (s pat : String) : Bool :=
  (List.range (s.data.length + 1)).any fun i => charsIsPrefix pat.data (s.data.drop i)

/-- `s.replace(pat, repl)` with a string pattern: replaces only the first
occurrence, returns `s` unchanged when `pat` does not occur. -/
def replaceOnceStr (s pat repl : String) : String :=
  match (List.range (s.data.length + 1)).find?
      (fun i => charsIsPrefix pat.data (s.data.drop i)) with
  | some i => String.mk (s.data.take i ++ repl.data ++ s.data.drop (i + pat.data.length))
  | none => s

/-- `s.toLowerCase()` (ASCII lowering; every string any claim lowers is
ASCII). -/
def strToLower (s : String) : String := String.mk (s.data.map Char.toLower)

/-- An outbound HTTP request (method, URL relative to the organization base
URL, optional JSON body).  The static Basic-auth header is elided: no claim
concerns it. -/
structure HttpRequest : Type where
  method : String
  url : String
  body : Option JsValue
deriving Repr

/-- What the platform answers: a parsed JSON body on success, or an axios
error on HTTP/network failure, carrying the response body `message` field
when one exists and the transport error message. -/
inductive HttpResult : Type where
  | ok : JsValue → HttpResult
  | axiosErr : Option String → String → HttpResult
deriving Repr

/-- The wrapped platform, abstracted as a function from requests to
responses. -/
def Backend : Type := HttpRequest → HttpResult

/-- Result of running an operation: the returned value or thrown exception,
together with the ordered list of HTTP requests it issued. -/
def Op (α : Type) : Type := Backend → Except Exn α × List HttpRequest

instance : Monad Op where
  pure a := fun _ => (.ok a, [])
  bind x f := fun b =>
    match x b with
    | (.ok a, t) =>
      match f a b with
      | (r, t2) => (r, t ++ t2)
    | (.error e, t) => (.error e, t)

/-- Lift a pure JavaScript evaluation (which may throw) into `Op`. -/
def Op.liftE (e : Except Exn α) : Op α := fun _ => (e, [])

/-- Throw an exception. -/
def Op.throwE (e : Exn) : Op α := fun _ => (.error e, [])

def mkGet (url : String) : HttpRequest := ⟨"GET", url, none⟩

def mkPost (url : String) (body : JsValue) : HttpRequest := ⟨"POST", url, some body⟩

def mkPut (url : String) (body : JsValue) : HttpRequest := ⟨"PUT", url, some body⟩

/-- `axiosInstance.get(url)`: issues the request; a platform failure is the
raw axios exception (to be rewrapped by the enclosing catch). -/
def axiosGet (url : String) : Op JsValue := fun b =>
  match b (mkGet url) with
  | .ok d => (.ok d, [mkGet url])
  | .axiosErr rm em => (.error (.axios rm em), [mkGet url])

/-- `axiosInstance.post(url, body)`. -/
def axiosPost (url : String) (body : JsValue) : Op JsValue := fun b =>
  match b (mkPost url body) with
  | .ok d => (.ok d, [mkPost url body])
  | .axiosErr rm em => (.error (.axios rm em), [mkPost url body])

/-- `axiosInstance.put(url, body)`. -/
def axiosPut (url : String) (body : JsValue) : Op JsValue := fun b =>
  match b (mkPut url body) with
  | .ok d => (.ok d, [mkPut url body])
  | .axiosErr rm em => (.error (.axios rm em), [mkPut url body])

/-- The `catch` block shared by every operation handler:
`if (axios.isAxiosError(error)) throw new AzureDevOpsError(...); throw error`.
An axios error is rewrapped with the response body message when present,
else the transport error message; every other exception is rethrown
unchanged. -/
def catchAxios (body : Op α) : Op α := fun b =>
  match body b with
  | (.error (.axios rm em), t) =>
    (.error (.azureDevOpsError ("Azure DevOps API error: " ++ (rm.getD em))), t)
  | r => r

/-- A tool invocation arguments map (`request.params.arguments`). -/
def Args : Type := List (String × JsValue)

/-- `request.params.arguments?.k`: `none` when the key is absent. -/
def Args.lookupArg (args : Args) (k : String) : Option JsValue :=
  List.lookup k args

/-- Truthiness of `request.params.arguments?.k` (absence is falsy). -/
def Args.truthyArg (args : Args) (k : String) : Bool :=
  match args.lookupArg k with
  | none => false
  | some v => v.truthy

/-- An argument read under a TypeScript `as string` cast and then used in a
template literal or passed on: modelled by JavaScript string coercion. -/
def Args.strArg (args : Args) (k : String) : String :=
  ((args.lookupArg k).getD .undefined).toJsString

/-- An argument read as `(x as string | undefined) ?? ""` (nullish
coalescing). -/
def Args.strArgOrEmpty (args : Args) (k : String) : String :=
  match args.lookupArg k with
  | none => ""
  | some .undefined => ""
  | some .null => ""
  | some v => v.toJsString

/-! URL templates used by the operation handlers, named for reuse in the
theorems. -/

def repoUrl (projectId repositoryId : String) : String :=
  projectId ++ "/_apis/git/repositories/" ++ repositoryId ++ "?api-version=7.1"

def refsHeadsUrl (projectId repositoryId : String) : String :=
  projectId ++ "/_apis/git/repositories/" ++ repositoryId ++ "/refs?filter=heads&api-version=7.1"

def refsUrl (projectId repositoryId : String) : String :=
  projectId ++ "/_apis/git/repositories/" ++ repositoryId ++ "/refs?api-version=7.1"

def latestCommitUrl (projectId repositoryId branchName : String) : String :=
  projectId ++ "/_apis/git/repositories/" ++ repositoryId ++
    "/commits?searchCriteria.itemVersion.version=" ++ branchName ++
    "&searchCriteria.$top=1&api-version=7.1"

def commitsUrl (projectId repositoryId branch : String) : String :=
  projectId ++ "/_apis/git/repositories/" ++ repositoryId ++
    "/commits?searchCriteria.itemVersion.version=" ++ branch ++ "&api-version=7.1"

def itemsUrl (projectId repositoryId filePath branch : String) : String :=
  projectId ++ "/_apis/git/repositories/" ++ repositoryId ++ "/items?path=" ++ filePath ++
    "&versionDescriptor.version=" ++ branch ++ "&api-version=7.1"

def pushesUrl (projectId repositoryId : String) : String :=
  projectId ++ "/_apis/git/repositories/" ++ repositoryId ++ "/pushes?api-version=7.1"

def repositoriesUrl (projectId : String) : String :=
  projectId ++ "/_apis/git/repositories?api-version=7.1"

/-! Operation handlers of `src/azure-devops/operations/branches.ts`. -/

/-- `getBranches` (branches.ts): one GET of the heads refs listing. -/
def getBranches (projectId repositoryId : String) : Op JsValue :=
  catchAxios (axiosGet (refsHeadsUrl projectId repositoryId))

/-- `getDefaultBranch` (branches.ts): GET the repository record and return its
`defaultBranch` field. -/
def getDefaultBranch (projectId repositoryId : String) : Op JsValue :=
  catchAxios do
    let data ← axiosGet (repoUrl projectId repositoryId)
    Op.liftE (data.getField "defaultBranch")

/-- `getLatestCommit` (branches.ts): GET the top commit of the branch; throws
the local platform error when the `value` list is missing or empty; returns
`value[0].commitId`. -/
def getLatestCommit (projectId repositoryId branchName : String) : Op JsValue :=
  catchAxios do
    let data ← axiosGet (latestCommitUrl projectId repositoryId branchName)
    let v ← Op.liftE (data.getField "value")
    if ¬ v.truthy ∨ v.lengthEqZero then
      Op.throwE (.azureDevOpsError ("No commits found for branch " ++ branchName))
    else do
      let first ← Op.liftE (v.index 0)
      Op.liftE (first.getField "commitId")

/-- The forty-zero old-object-id sentinel marking a new reference. -/
def zeroObjectId : String := "0000000000000000000000000000000000000000"

/-- The ref-creation request issued by `createBranch`. -/
def createBranchPost (projectId repositoryId branchName : String)
    (commitId : JsValue) : HttpRequest :=
  mkPost (refsUrl projectId repositoryId)
    (.obj [("name", .str ("refs/heads/" ++ branchName)),
           ("newObjectId", commitId),
           ("oldObjectId", .str zeroObjectId)])

/-- The default source branch of `createBranch`:
`(await getDefaultBranch(...)).replace("refs/heads/", "")` — `replace` on a
non-string default branch would be a thrown `TypeError`. -/
def defaultSourceBranch (projectId repositoryId : String) : Op String :=
  getDefaultBranch projectId repositoryId >>= fun d =>
    match d with
    | .str s => pure (replaceOnceStr s "refs/heads/" "")
    | _ => Op.throwE (.other "TypeError: d.replace is not a function")

/-- The body of `createBranch` after the source branch is chosen: fetch the
latest commit of the source branch, POST the new ref with the zero
old-object-id sentinel, and return `response.data.value[0]`. -/
def createBranchBody (projectId repositoryId branchName : String)
    (sourceBranchOp : Op String) : Op JsValue :=
  sourceBranchOp >>= fun sourceBranch =>
  getLatestCommit projectId repositoryId sourceBranch >>= fun commitId =>
  axiosPost (refsUrl projectId repositoryId)
      (.obj [("name", .str ("refs/heads/" ++ branchName)),
             ("newObjectId", commitId),
             ("oldObjectId", .str zeroObjectId)]) >>= fun data =>
  Op.liftE (data.getField "value") >>= fun v =>
  Op.liftE (v.index 0)

/-- `createBranch` (branches.ts): resolve the source branch
(`fromBranch || (await getDefaultBranch(...)).replace("refs/heads/", "")`,
a truthiness choice), fetch its latest commit, then POST the new ref with the
zero old-object-id sentinel and return `response.data.value[0]`. -/
def createBranch (projectId repositoryId branchName : String)
    (fromBranch : Option JsValue) : Op JsValue :=
  catchAxios
    (createBranchBody projectId repositoryId branchName
      (match fromBranch with
       | some v =>
         if v.truthy then pure v.toJsString
         else defaultSourceBranch projectId repositoryId
       | none => defaultSourceBranch projectId repositoryId))

/-- `updateBranch` (branches.ts): normalize the branch name to a
`refs/heads/` ref and POST the ref update. -/
def updateBranch (projectId repositoryId branchName newCommitId oldCommitId : String) :
    Op JsValue :=
  catchAxios do
    let formattedBranchName :=
      if strIsPrefixOf "refs/heads/" branchName then branchName
      else "refs/heads/" ++ branchName
    let data ← axiosPost (refsUrl projectId repositoryId)
      (.obj [("name", .str formattedBranchName),
             ("newObjectId", .str newCommitId),
             ("oldObjectId", .str oldCommitId)])
    let v ← Op.liftE (data.getField "value")
    Op.liftE (v.index 0)

/-! Operation handlers of `src/azure-devops/operations/commits.ts`,
`pulls.ts` and `issues.ts`. -/

/-- `getCommits` (commits.ts). -/
def getCommits (projectId repositoryId branch : String) : Op JsValue :=
  catchAxios (axiosGet (commitsUrl projectId repositoryId branch))

/-- `createPullRequest` (pulls.ts). -/
def createPullRequest (projectId repositoryId sourceBranch targetBranch title description : String) :
    Op JsValue :=
  catchAxios
    (axiosPost (projectId ++ "/_apis/git/repositories/" ++ repositoryId ++ "/pullrequests?api-version=7.1")
      (.obj [("sourceRefName", .str ("refs/heads/" ++ sourceBranch)),
             ("targetRefName", .str ("refs/heads/" ++ targetBranch)),
             ("title", .str title),
             ("description", .str description)]))

/-- `addIssueComment` (issues.ts); the repository id parameter is unused by
the request. -/
def addIssueComment (projectId repositoryId issueId comment : String) : Op JsValue :=
  catchAxios
    (axiosPost (projectId ++ "/_apis/wit/workitems/" ++ issueId ++ "/comments?api-version=7.1")
      (.obj [("text", .str comment)]))

/-! Operation handlers of `src/azure-devops/operations/files.ts`. -/

/-- `getFileContent` (files.ts): one GET of the file item, returning the
response body unmodified. -/
def getFileContent (projectId repositoryId filePath branch : String) : Op JsValue :=
  catchAxios (axiosGet (itemsUrl projectId repositoryId filePath branch))

/-- `createOrUpdateFile` (files.ts, also exported as `updateFileContent`):
GET the branch commit listing, read `data[0].commitId`, then PUT one push
whose ref update carries that commit id. -/
def createOrUpdateFile (projectId repositoryId filePath content commitMessage branch : String) :
    Op JsValue :=
  catchAxios do
    let commitsData ← axiosGet (commitsUrl projectId repositoryId branch)
    let first ← Op.liftE (commitsData.index 0)
    let latestCommitId ← Op.liftE (first.getField "commitId")
    axiosPut (pushesUrl projectId repositoryId)
      (.obj [("refUpdates", .arr [.obj [("name", .str ("refs/heads/" ++ branch)),
                                        ("oldObjectId", latestCommitId)]]),
             ("commits", .arr [.obj [("comment", .str commitMessage),
                                     ("changes", .arr [.obj [("changeType", .str "edit"),
                                                             ("item", .obj [("path", .str filePath)]),
                                                             ("newContent", .obj [("contentType", .str "rawtext"),
                                                                                  ("content", .str content)])]])]])])

/-- The change record built for one element of the `files` argument of
`pushFiles`; reading `path`/`content` off a non-object element follows the
JavaScript property-read semantics. -/
def pushFileChange (f : JsValue) : Except Exn JsValue := do
  let p ← f.getField "path"
  let c ← f.getField "content"
  .ok (.obj [("changeType", .str "edit"),
             ("item", .obj [("path", p)]),
             ("newContent", .obj [("contentType", .str "rawtext"), ("content", c)])])

/-- `pushFiles` (files.ts): resolve the branch head via `getLatestCommit`,
map the files to change records, then POST one push with a single commit. -/
def pushFiles (projectId repositoryId branch : String) (files : JsValue)
    (commitMessage : String) : Op JsValue :=
  catchAxios do
    let latestCommitId ← getLatestCommit projectId repositoryId branch
    let changes ← Op.liftE (match files with
      | .arr xs => (xs.mapM pushFileChange).map JsValue.arr
      | _ => .error (.other "TypeError: files.map is not a function"))
    axiosPost (pushesUrl projectId repositoryId)
      (.obj [("refUpdates", .arr [.obj [("name", .str ("refs/heads/" ++ branch)),
                                        ("oldObjectId", latestCommitId)]]),
             ("commits", .arr [.obj [("comment", .str commitMessage),
                                     ("changes", changes)]])])

/-! Operation handlers of `src/azure-devops/operations/repository.ts`. -/

/-- `createRepository` (repository.ts). -/
def createRepository (projectId name description : String) : Op JsValue :=
  catchAxios
    (axiosPost "_apis/git/repositories?api-version=7.1"
      (.obj [("name", .str name),
             ("project", .obj [("id", .str projectId)]),
             ("defaultBranch", .str "main"),
             ("description", .str description)]))

/-- The filter callback of `searchRepositories`:
`repo.name.toLowerCase().includes(q) || (repo.description && repo.description.toLowerCase().includes(q))`
where `q` is the lower-cased query; `toLowerCase` on a non-string is a thrown
`TypeError`, and a falsy `description` short-circuits to a falsy result. -/
def repoMatches (q : String) (repo : JsValue) : Except Exn Bool := do
  let name ← repo.getField "name"
  match name with
  | .str s =>
    if strContains (strToLower s) q then .ok true
    else do
      let description ← repo.getField "description"
      if description.truthy then
        match description with
        | .str ds => .ok (strContains (strToLower ds) q)
        | _ => .error (.other "TypeError: description.toLowerCase is not a function")
      else .ok false
  | _ => .error (.other "TypeError: name.toLowerCase is not a function")

/-- `Array.prototype.filter` with a callback that can throw. -/
def jsFilter (p : α → Except Exn Bool) : List α → Except Exn (List α)
  | [] => .ok []
  | x :: xs => do
    let keep ← p x
    let rest ← jsFilter p xs
    .ok (if keep then x :: rest else rest)

/-- `Array.prototype.slice(start, stop)` with the JavaScript clamping rules
(negative indices count from the end). -/
def jsSlice (xs : List JsValue) (start stop : Int) : List JsValue :=
  (xs.take (if stop < 0 then max ((xs.length : Int) + stop) 0
            else min stop (xs.length : Int)).toNat).drop
    (if start < 0 then max ((xs.length : Int) + start) 0
     else min start (xs.length : Int)).toNat

/-- `Math.ceil(a / b)` on integer operands (the division-by-zero case would be
`Infinity` in JavaScript; it is unreachable in every claim and mapped to 0). -/
def mathCeilDiv (a b : Int) : Int :=
  if b = 0 then 0 else -((-a).fdiv b)

/-- `searchRepositories` (repository.ts): GET the full repository listing for
the project, filter it client-side by the case-insensitive substring match on
name/description, then slice the requested page window and report
`total_count`, the page of `items`, and `totalPages`. -/
def searchRepositories (projectId query : String) (page perPage : Int) : Op JsValue :=
  catchAxios do
    let data ← axiosGet (repositoriesUrl projectId)
    let v ← Op.liftE (data.getField "value")
    let filteredRepos ← Op.liftE (match v with
      | .arr xs => jsFilter (repoMatches (strToLower query)) xs
      | _ => .error (.other "TypeError: value.filter is not a function"))
    let startIndex := (page - 1) * perPage
    let paginatedRepos := jsSlice filteredRepos startIndex (startIndex + perPage)
    pure (.obj [("total_count", .num filteredRepos.length),
                ("items", .arr paginatedRepos),
                ("page", .num page),
                ("perPage", .num perPage),
                ("totalPages", .num (mathCeilDiv filteredRepos.length perPage))])

/-- `forkRepository` (repository.ts): GET the source repository, create the
new repository via `createRepository` (target project defaulting by
truthiness), POST an import request, and return the new repository record
with a `source` field. -/
def forkRepository (projectId repositoryId name : String)
    (targetProjectId : Option JsValue) : Op JsValue :=
  catchAxios do
    let sourceRepo ← axiosGet (repoUrl projectId repositoryId)
    let targetProject := match targetProjectId with
      | some v => if v.truthy then v.toJsString else projectId
      | none => projectId
    let srcName ← Op.liftE (sourceRepo.getField "name")
    let srcDescription ← Op.liftE (sourceRepo.getField "description")
    let newRepo ← createRepository targetProject name
      ("Fork of " ++ srcName.toJsString ++ ": " ++
        (if srcDescription.truthy then srcDescription.toJsString else ""))
    let newRepoId ← Op.liftE (newRepo.getField "id")
    let remoteUrl ← Op.liftE (sourceRepo.getField "remoteUrl")
    let _ ← axiosPost (targetProject ++ "/_apis/git/repositories/" ++ newRepoId.toJsString ++
        "/importRequests?api-version=7.1")
      (.obj [("parameters", .obj [("gitSource", .obj [("url", remoteUrl)])])])
    Op.liftE (match newRepo with
      | .obj fs => .ok (.obj ((fs.filter fun kv => kv.1 ≠ "source") ++ [("source", sourceRepo)]))
      | _ => .ok (.obj [("source", sourceRepo)]))

/-! Operation handlers of `src/azure-devops/operations/search.ts`. -/

/-- `searchCode` (search.ts); the optional `filePath` and `top` parameters are
accepted but unused by the issued request. -/
def searchCode (projectId repositoryId searchText : String)
    (filePath : Option JsValue) (top : Option JsValue) : Op JsValue :=
  catchAxios
    (axiosGet (projectId ++ "/_apis/git/repositories/" ++ repositoryId ++
      "/items?search=" ++ searchText ++ "&api-version=7.1"))

/-- The WIQL query text built by `searchWorkItems`, with its truthiness-gated
optional clauses. -/
def wiqlQuery (projectId query : String)
    (state type assignedTo : Option JsValue) : String :=
  let base := "SELECT [System.Id], [System.Title], [System.State], [System.WorkItemType], [System.AssignedTo], [System.CreatedDate], [System.ChangedDate] FROM WorkItems WHERE [System.TeamProject] = " ++
    "\x27" ++ projectId ++ "\x27 AND CONTAINS(System.Title, \x27" ++ query ++ "\x27)"
  let base := match state with
    | some v => if v.truthy then base ++ " AND [System.State] = \x27" ++ v.toJsString ++ "\x27" else base
    | none => base
  let base := match type with
    | some v => if v.truthy then base ++ " AND [System.WorkItemType] = \x27" ++ v.toJsString ++ "\x27" else base
    | none => base
  let base := match assignedTo with
    | some v => if v.truthy then base ++ " AND [System.AssignedTo] = \x27" ++ v.toJsString ++ "\x27" else base
    | none => base
  base ++ " ORDER BY [System.ChangedDate] DESC"

/-- `searchWorkItems` (search.ts): POST the WIQL query (with `top` defaulting
to 100), and when the response carries a non-empty `workItems` list, GET the
detailed records for the joined ids and return their count and value;
otherwise return a zero count. -/
def searchWorkItems (projectId query : String)
    (state type assignedTo : Option JsValue) (top : Option JsValue) : Op JsValue :=
  catchAxios do
    let topVal : JsValue := (top.getD (.num 100))
    let data ← axiosPost (projectId ++ "/_apis/wit/wiql?api-version=7.1&$top=" ++ topVal.toJsString)
      (.obj [("query", .str (wiqlQuery projectId query state type assignedTo))])
    let workItems ← Op.liftE (data.getField "workItems")
    if workItems.truthy ∧ workItems.lengthGtZero then do
      let ids ← Op.liftE (match workItems with
        | .arr xs => (xs.mapM fun item : JsValue => item.getField "id").map
            fun l => String.intercalate "," (l.map JsValue.toJsString)
        | _ => .error (.other "TypeError: workItems.map is not a function"))
      let details ← axiosGet ("_apis/wit/workitems?ids=" ++ ids ++ "&api-version=7.1")
      let count ← Op.liftE (details.getField "count")
      let value ← Op.liftE (details.getField "value")
      pure (.obj [("count", count), ("value", value)])
    else
      pure (.obj [("count", .num 0), ("value", .arr [])])

/-- `searchUsers` (search.ts); URI-escaping of the query is elided. -/
def searchUsers (query : String) (top : Option JsValue) : Op JsValue :=
  catchAxios do
    let topVal : JsValue := (top.getD (.num 100))
    let data ← axiosGet ("_apis/graph/users?searchString=" ++ query ++
      "&api-version=7.1-preview.1&$top=" ++ topVal.toJsString)
    let count ← Op.liftE (data.getField "count")
    let value ← Op.liftE (data.getField "value")
    pure (.obj [("count", count), ("value", value)])

/-! The tool dispatcher (the `CallToolRequestSchema` handler installed by
`setupToolHandlers` in the server entry point). -/

/-- The tool result returned to the client: the `text` of its single content
item and the `isError` flag (absent on success, modelled as `false`). -/
structure ToolResult : Type where
  text : String
  isError : Bool
deriving Repr

/-- A catalog entry of the `ListToolsRequestSchema` response: the tool name
and the `required` list of its input schema (descriptions and property types
are elided; for the schemas produced by `zodToJsonSchema` the required list
is the set of non-optional fields of the zod schema). -/
structure ToolDescriptor : Type where
  name : String
  required : List String
deriving Repr, DecidableEq

/-- The static tool catalog advertised by the server. -/
def toolCatalog : List ToolDescriptor :=
  [⟨"get_projects", []⟩,
   ⟨"get_repositories", ["project_id"]⟩,
   ⟨"create_repository", ["project_id", "name"]⟩,
   ⟨"create_pull_request", ["project_id", "repository_id", "source_branch", "target_branch", "title"]⟩,
   ⟨"add_issue_comment", ["project_id", "repository_id", "issue_id", "comment"]⟩,
   ⟨"get_branches", ["project_id", "repository_id"]⟩,
   ⟨"get_commits", ["project_id", "repository_id", "branch"]⟩,
   ⟨"get_file_content", ["project_id", "repository_id", "file_path", "branch"]⟩,
   ⟨"update_file_content", ["project_id", "repository_id", "file_path", "branch", "content", "commit_message"]⟩,
   ⟨"search_code", ["project_id", "repository_id", "search_text"]⟩,
   ⟨"search_work_items", ["project_id", "query"]⟩,
   ⟨"search_users", ["query"]⟩,
   ⟨"fork_repository", ["project_id", "repository_id", "name"]⟩,
   ⟨"create_branch", ["project_id", "repository_id", "branch"]⟩,
   ⟨"update_branch", ["project_id", "repository_id", "branch", "new_commit_id", "old_commit_id"]⟩,
   ⟨"push_files", ["project_id", "repository_id", "branch", "files", "commit_message"]⟩,
   ⟨"create_or_update_file", ["project_id", "repository_id", "path", "content", "commit_message", "branch"]⟩]

/-- The tool names of the catalog. -/
def catalogNames : List String := toolCatalog.map ToolDescriptor.name

/-- The `InvalidParams` message of a dispatcher branch, enumerating the
required argument names exactly as the handwritten source messages do. -/
def mkRequiredMsg (ks : List String) : String :=
  match ks with
  | [] => ""
  | [k] => k ++ " is required"
  | [k1, k2] => k1 ++ " and " ++ k2 ++ " are required"
  | _ => String.intercalate ", " ks.dropLast ++ ", and " ++ (ks.getLast? |>.getD "") ++ " are required"

/-- The shape shared by every operation-backed dispatcher branch: first the
required-argument presence check (`if (!a || !b) throw new McpError(InvalidParams, msg)`,
made before any network call), then the operation inside
`try { ... } catch (error) { if (error instanceof AzureDevOpsError) return error-result; throw error }`. -/
def toolBranch (missing : Prop) [Decidable missing] (msg : String) (op : Op JsValue) :
    Op ToolResult := fun b =>
  if missing then (.error (.mcpError .invalidParams msg), [])
  else
    match op b with
    | (.ok v, t) => (.ok ⟨jsonStringify v, false⟩, t)
    | (.error (.azureDevOpsError m), t) =>
      (.ok ⟨"Azure DevOps API error: " ++ m, true⟩, t)
    | (.error e, t) => (.error e, t)

/-- The shape of the two inline branches (`get_projects`, `get_repositories`):
a direct axios GET whose `response.data.value` is stringified, with a catch
on the axios error shape (reporting `error.message`) instead of the local
platform error. -/
def toolBranchInline (missing : Prop) [Decidable missing] (msg : String) (url : String) :
    Op ToolResult := fun b =>
  if missing then (.error (.mcpError .invalidParams msg), [])
  else
    match b (mkGet url) with
    | .ok d =>
      match d.getField "value" with
      | .ok v => (.ok ⟨jsonStringify v, false⟩, [mkGet url])
      | .error e => (.error e, [mkGet url])
    | .axiosErr _ em =>
      (.ok ⟨"Azure DevOps API error: " ++ em, true⟩, [mkGet url])

/-- The `CallToolRequestSchema` handler: dispatch on the exact tool name, per
branch read the arguments, throw `InvalidParams` when a required one is
falsy, run the operation, convert a caught platform error into a returned
error result, and throw the fixed `MethodNotFound` error on any unknown
name.  (In the `update_file_content` branch the source passes its arguments
to `createOrUpdateFile` positionally in dispatcher order, which swaps
`branch`/`content`/`commit_message` against the operation signature; the
model reproduces that faithfully.) -/
def handleCallTool (name : String) (args : Args) : Op ToolResult :=
  if name = "get_projects" then
    toolBranchInline False "" "_apis/projects?api-version=7.1"
  else if name = "get_repositories" then
    toolBranchInline (args.truthyArg "project_id" = false)
      "project_id is required"
      (repositoriesUrl (args.strArg "project_id"))
  else if name = "create_repository" then
    toolBranch (args.truthyArg "project_id" = false ∨ args.truthyArg "name" = false)
      "project_id and name are required"
      (createRepository (args.strArg "project_id") (args.strArg "name")
        (args.strArgOrEmpty "description"))
  else if name = "create_pull_request" then
    toolBranch (args.truthyArg "project_id" = false ∨ args.truthyArg "repository_id" = false ∨
        args.truthyArg "source_branch" = false ∨ args.truthyArg "target_branch" = false ∨
        args.truthyArg "title" = false)
      "project_id, repository_id, source_branch, target_branch, and title are required"
      (createPullRequest (args.strArg "project_id") (args.strArg "repository_id")
        (args.strArg "source_branch") (args.strArg "target_branch")
        (args.strArg "title") (args.strArgOrEmpty "description"))
  else if name = "add_issue_comment" then
    toolBranch (args.truthyArg "project_id" = false ∨ args.truthyArg "repository_id" = false ∨
        args.truthyArg "issue_id" = false ∨ args.truthyArg "comment" = false)
      "project_id, repository_id, issue_id, and comment are required"
      (addIssueComment (args.strArg "project_id") (args.strArg "repository_id")
        (args.strArg "issue_id") (args.strArg "comment"))
  else if name = "get_branches" then
    toolBranch (args.truthyArg "project_id" = false ∨ args.truthyArg "repository_id" = false)
      "project_id and repository_id are required"
      (getBranches (args.strArg "project_id") (args.strArg "repository_id"))
  else if name = "get_commits" then
    toolBranch (args.truthyArg "project_id" = false ∨ args.truthyArg "repository_id" = false ∨
        args.truthyArg "branch" = false)
      "project_id, repository_id, and branch are required"
      (getCommits (args.strArg "project_id") (args.strArg "repository_id")
        (args.strArg "branch"))
  else if name = "get_file_content" then
    toolBranch (args.truthyArg "project_id" = false ∨ args.truthyArg "repository_id" = false ∨
        args.truthyArg "file_path" = false ∨ args.truthyArg "branch" = false)
      "project_id, repository_id, file_path, and branch are required"
      (getFileContent (args.strArg "project_id") (args.strArg "repository_id")
        (args.strArg "file_path") (args.strArg "branch"))
  else if name = "update_file_content" then
    toolBranch (args.truthyArg "project_id" = false ∨ args.truthyArg "repository_id" = false ∨
        args.truthyArg "file_path" = false ∨ args.truthyArg "branch" = false ∨
        args.truthyArg "content" = false ∨ args.truthyArg "commit_message" = false)
      "project_id, repository_id, file_path, branch, content, and commit_message are required"
      (createOrUpdateFile (args.strArg "project_id") (args.strArg "repository_id")
        (args.strArg "file_path") (args.strArg "branch") (args.strArg "content")
        (args.strArg "commit_message"))
  else if name = "search_code" then
    toolBranch (args.truthyArg "project_id" = false ∨ args.truthyArg "repository_id" = false ∨
        args.truthyArg "search_text" = false)
      "project_id, repository_id, and search_text are required"
      (searchCode (args.strArg "project_id") (args.strArg "repository_id")
        (args.strArg "search_text") (args.lookupArg "file_path") (args.lookupArg "top"))
  else if name = "search_work_items" then
    toolBranch (args.truthyArg "project_id" = false ∨ args.truthyArg "query" = false)
      "project_id and query are required"
      (searchWorkItems (args.strArg "project_id") (args.strArg "query")
        (args.lookupArg "state") (args.lookupArg "type") (args.lookupArg "assigned_to")
        (args.lookupArg "top"))
  else if name = "search_users" then
    toolBranch (args.truthyArg "query" = false)
      "query is required"
      (searchUsers (args.strArg "query") (args.lookupArg "top"))
  else if name = "fork_repository" then
    toolBranch (args.truthyArg "project_id" = false ∨ args.truthyArg "repository_id" = false ∨
        args.truthyArg "name" = false)
      "project_id, repository_id, and name are required"
      (forkRepository (args.strArg "project_id") (args.strArg "repository_id")
        (args.strArg "name") (args.lookupArg "target_project_id"))
  else if name = "create_branch" then
    toolBranch (args.truthyArg "project_id" = false ∨ args.truthyArg "repository_id" = false ∨
        args.truthyArg "branch" = false)
      "project_id, repository_id, and branch are required"
      (createBranch (args.strArg "project_id") (args.strArg "repository_id")
        (args.strArg "branch") (args.lookupArg "from_branch"))
  else if name = "update_branch" then
    toolBranch (args.truthyArg "project_id" = false ∨ args.truthyArg "repository_id" = false ∨
        args.truthyArg "branch" = false ∨ args.truthyArg "new_commit_id" = false ∨
        args.truthyArg "old_commit_id" = false)
      "project_id, repository_id, branch, new_commit_id, and old_commit_id are required"
      (updateBranch (args.strArg "project_id") (args.strArg "repository_id")
        (args.strArg "branch") (args.strArg "new_commit_id") (args.strArg "old_commit_id"))
  else if name = "push_files" then
    toolBranch (args.truthyArg "project_id" = false ∨ args.truthyArg "repository_id" = false ∨
        args.truthyArg "branch" = false ∨ args.truthyArg "files" = false ∨
        args.truthyArg "commit_message" = false)
      "project_id, repository_id, branch, files, and commit_message are required"
      (pushFiles (args.strArg "project_id") (args.strArg "repository_id")
        (args.strArg "branch") ((args.lookupArg "files").getD .undefined)
        (args.strArg "commit_message"))
  else if name = "create_or_update_file" then
    toolBranch (args.truthyArg "project_id" = false ∨ args.truthyArg "repository_id" = false ∨
        args.truthyArg "path" = false ∨ args.truthyArg "content" = false ∨
        args.truthyArg "commit_message" = false ∨ args.truthyArg "branch" = false)
      "project_id, repository_id, path, content, commit_message, and branch are required"
      (createOrUpdateFile (args.strArg "project_id") (args.strArg "repository_id")
        (args.strArg "path") (args.strArg "content") (args.strArg "commit_message")
        (args.strArg "branch"))
  else
    fun _ => (.error (.mcpError .methodNotFound ("Unknown tool: " ++ name)), [])

/-- Module-level startup of the server entry point: the environment variables
are read once; a falsy `AZURE_DEVOPS_ORG_URL` or `AZURE_DEVOPS_API_TOKEN`
throws before the `AzureDevOpsServer` object (holding the configured axios
instance) can be constructed. -/
def moduleInit (orgUrl apiToken : Option String) :
    Except String (String × String) :=
  if (orgUrl.getD "").isEmpty ∨ (apiToken.getD "").isEmpty then
    .error "AZURE_DEVOPS_ORG_URL and AZURE_DEVOPS_API_TOKEN environment variables are required"
  else
    .ok (orgUrl.getD "", apiToken.getD "")

/-! Computation lemmas for the embedding. -/

theorem Op.pure_apply {α} (a : α) (b : Backend) :
    (pure a : Op α) b = (.ok a, []) := rfl

theorem Op.liftE_apply {α} (e : Except Exn α) (b : Backend) :
    Op.liftE e b = (e, []) := rfl

theorem Op.bind_ok {α β} {x : Op α} {f : α → Op β} {b : Backend} {a : α}
    {t : List HttpRequest} (h : x b = (.ok a, t)) :
    (x >>= f) b = ((f a b).1, t ++ (f a b).2) := by
  show (match x b with
    | (.ok a, t) =>
      match f a b with
      | (r, t2) => (r, t ++ t2)
    | (.error e, t) => (.error e, t)) = ((f a b).1, t ++ (f a b).2)
  rw [h]

theorem Op.bind_error {α β} {x : Op α} {f : α → Op β} {b : Backend} {e : Exn}
    {t : List HttpRequest} (h : x b = (.error e, t)) :
    (x >>= f) b = (.error e, t) := by
  show (match x b with
    | (.ok a, t) =>
      match f a b with
      | (r, t2) => (r, t ++ t2)
    | (.error e, t) => (.error e, t)) = (.error e, t)
  rw [h]

theorem axiosGet_ok {url : String} {b : Backend} {d : JsValue}
    (h : b (mkGet url) = .ok d) :
    axiosGet url b = (.ok d, [mkGet url]) := by
  unfold axiosGet; rw [h]

theorem axiosGet_err {url : String} {b : Backend} {rm : Option String} {em : String}
    (h : b (mkGet url) = .axiosErr rm em) :
    axiosGet url b = (.error (.axios rm em), [mkGet url]) := by
  unfold axiosGet; rw [h]

theorem axiosPost_ok {url : String} {body : JsValue} {b : Backend} {d : JsValue}
    (h : b (mkPost url body) = .ok d) :
    axiosPost url body b = (.ok d, [mkPost url body]) := by
  unfold axiosPost; rw [h]

theorem axiosPost_err {url : String} {body : JsValue} {b : Backend} {rm : Option String}
    {em : String} (h : b (mkPost url body) = .axiosErr rm em) :
    axiosPost url body b = (.error (.axios rm em), [mkPost url body]) := by
  unfold axiosPost; rw [h]

/-- The pure content of `catchAxios`: rewrap a raw axios exception, leave
every other outcome unchanged. -/
def catchAxiosE {α} : Except Exn α → Except Exn α
  | .error (.axios rm em) =>
    .error (.azureDevOpsError ("Azure DevOps API error: " ++ (rm.getD em)))
  | r => r

theorem catchAxios_eq {α} (body : Op α) (b : Backend) :
    catchAxios body b = (catchAxiosE (body b).1, (body b).2) := by
  unfold catchAxios catchAxiosE
  rcases body b with ⟨res, t⟩
  rcases res with e | a
  · cases e <;> rfl
  · rfl

theorem catchAxiosE_not_axios {α} (e : Except Exn α) (rm : Option String) (em : String) :
    catchAxiosE e ≠ .error (.axios rm em) := by
  rcases e with ex | a
  · cases ex <;> simp [catchAxiosE]
  · simp [catchAxiosE]

theorem catchAxios_not_axios {α} (body : Op α) (b : Backend) (rm : Option String)
    (em : String) : (catchAxios body b).1 ≠ .error (.axios rm em) := by
  rw [catchAxios_eq]
  exact catchAxiosE_not_axios _ rm em

/-! Computation lemmas for the dispatcher branch combinators. -/

theorem toolBranch_missing {missing : Prop} [Decidable missing] {msg : String}
    {op : Op JsValue} {b : Backend} (h : missing) :
    toolBranch missing msg op b = (.error (.mcpError .invalidParams msg), []) := by
  unfold toolBranch; rw [if_pos h]

theorem toolBranchInline_missing {missing : Prop} [Decidable missing] {msg : String}
    {url : String} {b : Backend} (h : missing) :
    toolBranchInline missing msg url b = (.error (.mcpError .invalidParams msg), []) := by
  unfold toolBranchInline; rw [if_pos h]

theorem toolBranch_run {missing : Prop} [Decidable missing] {msg : String}
    {op : Op JsValue} {b : Backend} (h : ¬ missing) :
    toolBranch missing msg op b =
      (match op b with
       | (.ok v, t) => (.ok ⟨jsonStringify v, false⟩, t)
       | (.error (.azureDevOpsError m), t) =>
         (.ok ⟨"Azure DevOps API error: " ++ m, true⟩, t)
       | (.error e, t) => (.error e, t)) := by
  unfold toolBranch; rw [if_neg h]

/-- Error shape of an operation-backed branch: whatever the arguments and the
backend, a thrown (non-returned) failure is a protocol `McpError` or a
non-platform exception — never a platform error — provided the operation
never lets a raw axios error escape. -/
theorem toolBranch_error_shape {missing : Prop} [Decidable missing] {msg : String}
    {op : Op JsValue} (hop : ∀ b rm em, (op b).1 ≠ .error (.axios rm em))
    {b : Backend} {e : Exn}
    (h : (toolBranch missing msg op b).1 = .error e) :
    (∃ c m, e = .mcpError c m) ∨ (∃ m, e = .other m) := by
  by_cases hm : missing
  · rw [toolBranch_missing hm] at h
    exact Or.inl ⟨_, _, (Except.error.inj h).symm⟩
  · rw [toolBranch_run hm] at h
    rcases hob : op b with ⟨res, tr⟩
    rw [hob] at h
    rcases res with ex | v
    · rcases ex with ⟨rm, em⟩ | m | ⟨c, m⟩ | m
      · exact absurd (by rw [hob] : (op b).1 = .error (.axios rm em)) (hop b rm em)
      · simp at h
      · simp at h
        exact Or.inl ⟨c, m, h.symm⟩
      · simp at h
        exact Or.inr ⟨m, h.symm⟩
    · simp at h

/-- Error shape of an inline branch: a thrown failure is a protocol error or
a non-platform exception. -/
theorem toolBranchInline_error_shape {missing : Prop} [Decidable missing] {msg : String}
    {url : String} {b : Backend} {e : Exn}
    (h : (toolBranchInline missing msg url b).1 = .error e) :
    (∃ c m, e = .mcpError c m) ∨ (∃ m, e = .other m) := by
  by_cases hm : missing
  · rw [toolBranchInline_missing hm] at h
    exact Or.inl ⟨_, _, (Except.error.inj h).symm⟩
  · unfold toolBranchInline at h
    rw [if_neg hm] at h
    rcases hb : b (mkGet url) with d | ⟨rm, em⟩
    · rw [hb] at h
      replace h : (match d.getField "value" with
        | .ok v => ((.ok ⟨jsonStringify v, false⟩ : Except Exn ToolResult), [mkGet url])
        | .error e => (.error e, [mkGet url])).1 = .error e := h
      rcases hg : d.getField "value" with ex | v
      · rw [hg] at h
        simp at h
        subst h
        rcases d with _ | _ | bv | nv | sv | av | ov <;>
          simp [JsValue.getField] at hg
        · exact Or.inr ⟨_, hg.symm⟩
        · exact Or.inr ⟨_, hg.symm⟩
      · rw [hg] at h
        simp at h
    · rw [hb] at h
      simp at h

/-! Dispatch equations: one per catalog name, each by definitional
unfolding of the exact-name if-chain. -/

theorem handle_get_projects (args : Args) :
    handleCallTool "get_projects" args =
      toolBranchInline False "" "_apis/projects?api-version=7.1" := rfl

theorem handle_get_repositories (args : Args) :
    handleCallTool "get_repositories" args =
      toolBranchInline (args.truthyArg "project_id" = false)
        "project_id is required"
        (repositoriesUrl (args.strArg "project_id")) := rfl

theorem handle_create_repository (args : Args) :
    handleCallTool "create_repository" args =
      toolBranch (args.truthyArg "project_id" = false ∨ args.truthyArg "name" = false)
        "project_id and name are required"
        (createRepository (args.strArg "project_id") (args.strArg "name")
          (args.strArgOrEmpty "description")) := rfl

theorem handle_create_pull_request (args : Args) :
    handleCallTool "create_pull_request" args =
      toolBranch (args.truthyArg "project_id" = false ∨ args.truthyArg "repository_id" = false ∨
          args.truthyArg "source_branch" = false ∨ args.truthyArg "target_branch" = false ∨
          args.truthyArg "title" = false)
        "project_id, repository_id, source_branch, target_branch, and title are required"
        (createPullRequest (args.strArg "project_id") (args.strArg "repository_id")
          (args.strArg "source_branch") (args.strArg "target_branch")
          (args.strArg "title") (args.strArgOrEmpty "description")) := rfl

theorem handle_add_issue_comment (args : Args) :
    handleCallTool "add_issue_comment" args =
      toolBranch (args.truthyArg "project_id" = false ∨ args.truthyArg "repository_id" = false ∨
          args.truthyArg "issue_id" = false ∨ args.truthyArg "comment" = false)
        "project_id, repository_id, issue_id, and comment are required"
        (addIssueComment (args.strArg "project_id") (args.strArg "repository_id")
          (args.strArg "issue_id") (args.strArg "comment")) := rfl

theorem handle_get_branches (args : Args) :
    handleCallTool "get_branches" args =
      toolBranch (args.truthyArg "project_id" = false ∨ args.truthyArg "repository_id" = false)
        "project_id and repository_id are required"
        (getBranches (args.strArg "project_id") (args.strArg "repository_id")) := rfl

theorem handle_get_commits (args : Args) :
    handleCallTool "get_commits" args =
      toolBranch (args.truthyArg "project_id" = false ∨ args.truthyArg "repository_id" = false ∨
          args.truthyArg "branch" = false)
        "project_id, repository_id, and branch are required"
        (getCommits (args.strArg "project_id") (args.strArg "repository_id")
          (args.strArg "branch")) := rfl

theorem handle_get_file_content (args : Args) :
    handleCallTool "get_file_content" args =
      toolBranch (args.truthyArg "project_id" = false ∨ args.truthyArg "repository_id" = false ∨
          args.truthyArg "file_path" = false ∨ args.truthyArg "branch" = false)
        "project_id, repository_id, file_path, and branch are required"
        (getFileContent (args.strArg "project_id") (args.strArg "repository_id")
          (args.strArg "file_path") (args.strArg "branch")) := rfl

theorem handle_update_file_content (args : Args) :
    handleCallTool "update_file_content" args =
      toolBranch (args.truthyArg "project_id" = false ∨ args.truthyArg "repository_id" = false ∨
          args.truthyArg "file_path" = false ∨ args.truthyArg "branch" = false ∨
          args.truthyArg "content" = false ∨ args.truthyArg "commit_message" = false)
        "project_id, repository_id, file_path, branch, content, and commit_message are required"
        (createOrUpdateFile (args.strArg "project_id") (args.strArg "repository_id")
          (args.strArg "file_path") (args.strArg "branch") (args.strArg "content")
          (args.strArg "commit_message")) := rfl

theorem handle_search_code (args : Args) :
    handleCallTool "search_code" args =
      toolBranch (args.truthyArg "project_id" = false ∨ args.truthyArg "repository_id" = false ∨
          args.truthyArg "search_text" = false)
        "project_id, repository_id, and search_text are required"
        (searchCode (args.strArg "project_id") (args.strArg "repository_id")
          (args.strArg "search_text") (args.lookupArg "file_path") (args.lookupArg "top")) := rfl

theorem handle_search_work_items (args : Args) :
    handleCallTool "search_work_items" args =
      toolBranch (args.truthyArg "project_id" = false ∨ args.truthyArg "query" = false)
        "project_id and query are required"
        (searchWorkItems (args.strArg "project_id") (args.strArg "query")
          (args.lookupArg "state") (args.lookupArg "type") (args.lookupArg "assigned_to")
          (args.lookupArg "top")) := rfl

theorem handle_search_users (args : Args) :
    handleCallTool "search_users" args =
      toolBranch (args.truthyArg "query" = false)
        "query is required"
        (searchUsers (args.strArg "query") (args.lookupArg "top")) := rfl

theorem handle_fork_repository (args : Args) :
    handleCallTool "fork_repository" args =
      toolBranch (args.truthyArg "project_id" = false ∨ args.truthyArg "repository_id" = false ∨
          args.truthyArg "name" = false)
        "project_id, repository_id, and name are required"
        (forkRepository (args.strArg "project_id") (args.strArg "repository_id")
          (args.strArg "name") (args.lookupArg "target_project_id")) := rfl

theorem handle_create_branch (args : Args) :
    handleCallTool "create_branch" args =
      toolBranch (args.truthyArg "project_id" = false ∨ args.truthyArg "repository_id" = false ∨
          args.truthyArg "branch" = false)
        "project_id, repository_id, and branch are required"
        (createBranch (args.strArg "project_id") (args.strArg "repository_id")
          (args.strArg "branch") (args.lookupArg "from_branch")) := rfl

theorem handle_update_branch (args : Args) :
    handleCallTool "update_branch" args =
      toolBranch (args.truthyArg "project_id" = false ∨ args.truthyArg "repository_id" = false ∨
          args.truthyArg "branch" = false ∨ args.truthyArg "new_commit_id" = false ∨
          args.truthyArg "old_commit_id" = false)
        "project_id, repository_id, branch, new_commit_id, and old_commit_id are required"
        (updateBranch (args.strArg "project_id") (args.strArg "repository_id")
          (args.strArg "branch") (args.strArg "new_commit_id") (args.strArg "old_commit_id")) := rfl

theorem handle_push_files (args : Args) :
    handleCallTool "push_files" args =
      toolBranch (args.truthyArg "project_id" = false ∨ args.truthyArg "repository_id" = false ∨
          args.truthyArg "branch" = false ∨ args.truthyArg "files" = false ∨
          args.truthyArg "commit_message" = false)
        "project_id, repository_id, branch, files, and commit_message are required"
        (pushFiles (args.strArg "project_id") (args.strArg "repository_id")
          (args.strArg "branch") ((args.lookupArg "files").getD .undefined)
          (args.strArg "commit_message")) := rfl

theorem handle_create_or_update_file (args : Args) :
    handleCallTool "create_or_update_file" args =
      toolBranch (args.truthyArg "project_id" = false ∨ args.truthyArg "repository_id" = false ∨
          args.truthyArg "path" = false ∨ args.truthyArg "content" = false ∨
          args.truthyArg "commit_message" = false ∨ args.truthyArg "branch" = false)
        "project_id, repository_id, path, content, commit_message, and branch are required"
        (createOrUpdateFile (args.strArg "project_id") (args.strArg "repository_id")
          (args.strArg "path") (args.strArg "content") (args.strArg "commit_message")
          (args.strArg "branch")) := rfl

/-! Every operation handler has the `catch`/rewrap as its outermost frame, so
none lets a raw axios error escape. -/

theorem createRepository_not_axios (p n d : String) (b : Backend) (rm : Option String)
    (em : String) : (createRepository p n d b).1 ≠ .error (.axios rm em) :=
  catchAxios_not_axios _ b rm em

theorem createPullRequest_not_axios (p r sb tb ti d : String) (b : Backend)
    (rm : Option String) (em : String) :
    (createPullRequest p r sb tb ti d b).1 ≠ .error (.axios rm em) :=
  catchAxios_not_axios _ b rm em

theorem addIssueComment_not_axios (p r i c : String) (b : Backend) (rm : Option String)
    (em : String) : (addIssueComment p r i c b).1 ≠ .error (.axios rm em) :=
  catchAxios_not_axios _ b rm em

theorem getBranches_not_axios (p r : String) (b : Backend) (rm : Option String)
    (em : String) : (getBranches p r b).1 ≠ .error (.axios rm em) :=
  catchAxios_not_axios _ b rm em

theorem getCommits_not_axios (p r br : String) (b : Backend) (rm : Option String)
    (em : String) : (getCommits p r br b).1 ≠ .error (.axios rm em) :=
  catchAxios_not_axios _ b rm em

theorem getFileContent_not_axios (p r f br : String) (b : Backend) (rm : Option String)
    (em : String) : (getFileContent p r f br b).1 ≠ .error (.axios rm em) :=
  catchAxios_not_axios _ b rm em

theorem createOrUpdateFile_not_axios (p r f c cm br : String) (b : Backend)
    (rm : Option String) (em : String) :
    (createOrUpdateFile p r f c cm br b).1 ≠ .error (.axios rm em) :=
  catchAxios_not_axios _ b rm em

theorem pushFiles_not_axios (p r br : String) (files : JsValue) (cm : String)
    (b : Backend) (rm : Option String) (em : String) :
    (pushFiles p r br files cm b).1 ≠ .error (.axios rm em) :=
  catchAxios_not_axios _ b rm em

theorem searchCode_not_axios (p r s : String) (fp top : Option JsValue) (b : Backend)
    (rm : Option String) (em : String) :
    (searchCode p r s fp top b).1 ≠ .error (.axios rm em) :=
  catchAxios_not_axios _ b rm em

theorem searchWorkItems_not_axios (p q : String) (st ty at_ top : Option JsValue)
    (b : Backend) (rm : Option String) (em : String) :
    (searchWorkItems p q st ty at_ top b).1 ≠ .error (.axios rm em) :=
  catchAxios_not_axios _ b rm em

theorem searchUsers_not_axios (q : String) (top : Option JsValue) (b : Backend)
    (rm : Option String) (em : String) :
    (searchUsers q top b).1 ≠ .error (.axios rm em) :=
  catchAxios_not_axios _ b rm em

theorem forkRepository_not_axios (p r n : String) (tp : Option JsValue) (b : Backend)
    (rm : Option String) (em : String) :
    (forkRepository p r n tp b).1 ≠ .error (.axios rm em) :=
  catchAxios_not_axios _ b rm em

theorem createBranch_not_axios (p r br : String) (fb : Option JsValue) (b : Backend)
    (rm : Option String) (em : String) :
    (createBranch p r br fb b).1 ≠ .error (.axios rm em) :=
  catchAxios_not_axios _ b rm em

theorem updateBranch_not_axios (p r br nc oc : String) (b : Backend)
    (rm : Option String) (em : String) :
    (updateBranch p r br nc oc b).1 ≠ .error (.axios rm em) :=
  catchAxios_not_axios _ b rm em

/-- Core validation lemma: for any catalog tool, an invocation whose
arguments leave some required key falsy is rejected by the branch guard with
that branch's `InvalidParams` message, before any HTTP request is issued. -/
theorem invalidParams_core (t : ToolDescriptor) (ht : t ∈ toolCatalog)
    (args : Args) (b : Backend)
    (hmiss : ∃ k ∈ t.required, args.truthyArg k = false) :
    handleCallTool t.name args b =
      (.error (.mcpError .invalidParams (mkRequiredMsg t.required)), []) := by
  obtain ⟨k, hk, hf⟩ := hmiss
  fin_cases ht <;> simp only [List.mem_cons, List.not_mem_nil, or_false] at hk
  · subst hk
    rw [handle_get_repositories]
    exact toolBranchInline_missing hf
  · rcases hk with rfl | rfl
    · rw [handle_create_repository]; exact toolBranch_missing (Or.inl hf)
    · rw [handle_create_repository]; exact toolBranch_missing (Or.inr hf)
  · rcases hk with rfl | rfl | rfl | rfl | rfl
    · rw [handle_create_pull_request]; exact toolBranch_missing (Or.inl hf)
    · rw [handle_create_pull_request]; exact toolBranch_missing (Or.inr (Or.inl hf))
    · rw [handle_create_pull_request]; exact toolBranch_missing (Or.inr (Or.inr (Or.inl hf)))
    · rw [handle_create_pull_request]; exact toolBranch_missing (Or.inr (Or.inr (Or.inr (Or.inl hf))))
    · rw [handle_create_pull_request]; exact toolBranch_missing (Or.inr (Or.inr (Or.inr (Or.inr hf))))
  · rcases hk with rfl | rfl | rfl | rfl
    · rw [handle_add_issue_comment]; exact toolBranch_missing (Or.inl hf)
    · rw [handle_add_issue_comment]; exact toolBranch_missing (Or.inr (Or.inl hf))
    · rw [handle_add_issue_comment]; exact toolBranch_missing (Or.inr (Or.inr (Or.inl hf)))
    · rw [handle_add_issue_comment]; exact toolBranch_missing (Or.inr (Or.inr (Or.inr hf)))
  · rcases hk with rfl | rfl
    · rw [handle_get_branches]; exact toolBranch_missing (Or.inl hf)
    · rw [handle_get_branches]; exact toolBranch_missing (Or.inr hf)
  · rcases hk with rfl | rfl | rfl
    · rw [handle_get_commits]; exact toolBranch_missing (Or.inl hf)
    · rw [handle_get_commits]; exact toolBranch_missing (Or.inr (Or.inl hf))
    · rw [handle_get_commits]; exact toolBranch_missing (Or.inr (Or.inr hf))
  · rcases hk with rfl | rfl | rfl | rfl
    · rw [handle_get_file_content]; exact toolBranch_missing (Or.inl hf)
    · rw [handle_get_file_content]; exact toolBranch_missing (Or.inr (Or.inl hf))
    · rw [handle_get_file_content]; exact toolBranch_missing (Or.inr (Or.inr (Or.inl hf)))
    · rw [handle_get_file_content]; exact toolBranch_missing (Or.inr (Or.inr (Or.inr hf)))
  · rcases hk with rfl | rfl | rfl | rfl | rfl | rfl
    · rw [handle_update_file_content]; exact toolBranch_missing (Or.inl hf)
    · rw [handle_update_file_content]; exact toolBranch_missing (Or.inr (Or.inl hf))
    · rw [handle_update_file_content]; exact toolBranch_missing (Or.inr (Or.inr (Or.inl hf)))
    · rw [handle_update_file_content]; exact toolBranch_missing (Or.inr (Or.inr (Or.inr (Or.inl hf))))
    · rw [handle_update_file_content]; exact toolBranch_missing (Or.inr (Or.inr (Or.inr (Or.inr (Or.inl hf)))))
    · rw [handle_update_file_content]; exact toolBranch_missing (Or.inr (Or.inr (Or.inr (Or.inr (Or.inr hf)))))
  · rcases hk with rfl | rfl | rfl
    · rw [handle_search_code]; exact toolBranch_missing (Or.inl hf)
    · rw [handle_search_code]; exact toolBranch_missing (Or.inr (Or.inl hf))
    · rw [handle_search_code]; exact toolBranch_missing (Or.inr (Or.inr hf))
  · rcases hk with rfl | rfl
    · rw [handle_search_work_items]; exact toolBranch_missing (Or.inl hf)
    · rw [handle_search_work_items]; exact toolBranch_missing (Or.inr hf)
  · subst hk
    rw [handle_search_users]
    exact toolBranch_missing hf
  · rcases hk with rfl | rfl | rfl
    · rw [handle_fork_repository]; exact toolBranch_missing (Or.inl hf)
    · rw [handle_fork_repository]; exact toolBranch_missing (Or.inr (Or.inl hf))
    · rw [handle_fork_repository]; exact toolBranch_missing (Or.inr (Or.inr hf))
  · rcases hk with rfl | rfl | rfl
    · rw [handle_create_branch]; exact toolBranch_missing (Or.inl hf)
    · rw [handle_create_branch]; exact toolBranch_missing (Or.inr (Or.inl hf))
    · rw [handle_create_branch]; exact toolBranch_missing (Or.inr (Or.inr hf))
  · rcases hk with rfl | rfl | rfl | rfl | rfl
    · rw [handle_update_branch]; exact toolBranch_missing (Or.inl hf)
    · rw [handle_update_branch]; exact toolBranch_missing (Or.inr (Or.inl hf))
    · rw [handle_update_branch]; exact toolBranch_missing (Or.inr (Or.inr (Or.inl hf)))
    · rw [handle_update_branch]; exact toolBranch_missing (Or.inr (Or.inr (Or.inr (Or.inl hf))))
    · rw [handle_update_branch]; exact toolBranch_missing (Or.inr (Or.inr (Or.inr (Or.inr hf))))
  · rcases hk with rfl | rfl | rfl | rfl | rfl
    · rw [handle_push_files]; exact toolBranch_missing (Or.inl hf)
    · rw [handle_push_files]; exact toolBranch_missing (Or.inr (Or.inl hf))
    · rw [handle_push_files]; exact toolBranch_missing (Or.inr (Or.inr (Or.inl hf)))
    · rw [handle_push_files]; exact toolBranch_missing (Or.inr (Or.inr (Or.inr (Or.inl hf))))
    · rw [handle_push_files]; exact toolBranch_missing (Or.inr (Or.inr (Or.inr (Or.inr hf))))
  · rcases hk with rfl | rfl | rfl | rfl | rfl | rfl
    · rw [handle_create_or_update_file]; exact toolBranch_missing (Or.inl hf)
    · rw [handle_create_or_update_file]; exact toolBranch_missing (Or.inr (Or.inl hf))
    · rw [handle_create_or_update_file]; exact toolBranch_missing (Or.inr (Or.inr (Or.inl hf)))
    · rw [handle_create_or_update_file]; exact toolBranch_missing (Or.inr (Or.inr (Or.inr (Or.inl hf))))
    · rw [handle_create_or_update_file]; exact toolBranch_missing (Or.inr (Or.inr (Or.inr (Or.inr (Or.inl hf)))))
    · rw [handle_create_or_update_file]; exact toolBranch_missing (Or.inr (Or.inr (Or.inr (Or.inr (Or.inr hf)))))

/-- Core dispatch lemma: a name matching no catalog entry falls through the
whole exact-equality if-chain to the fixed unknown-tool error. -/
theorem unknownTool_core (name : String) (args : Args) (b : Backend)
    (h : name ∉ catalogNames) :
    handleCallTool name args b =
      (.error (.mcpError .methodNotFound ("Unknown tool: " ++ name)), []) := by
  have h1 : ¬(name = "get_projects") := fun hh => h (by rw [hh]; decide)
  have h2 : ¬(name = "get_repositories") := fun hh => h (by rw [hh]; decide)
  have h3 : ¬(name = "create_repository") := fun hh => h (by rw [hh]; decide)
  have h4 : ¬(name = "create_pull_request") := fun hh => h (by rw [hh]; decide)
  have h5 : ¬(name = "add_issue_comment") := fun hh => h (by rw [hh]; decide)
  have h6 : ¬(name = "get_branches") := fun hh => h (by rw [hh]; decide)
  have h7 : ¬(name = "get_commits") := fun hh => h (by rw [hh]; decide)
  have h8 : ¬(name = "get_file_content") := fun hh => h (by rw [hh]; decide)
  have h9 : ¬(name = "update_file_content") := fun hh => h (by rw [hh]; decide)
  have h10 : ¬(name = "search_code") := fun hh => h (by rw [hh]; decide)
  have h11 : ¬(name = "search_work_items") := fun hh => h (by rw [hh]; decide)
  have h12 : ¬(name = "search_users") := fun hh => h (by rw [hh]; decide)
  have h13 : ¬(name = "fork_repository") := fun hh => h (by rw [hh]; decide)
  have h14 : ¬(name = "create_branch") := fun hh => h (by rw [hh]; decide)
  have h15 : ¬(name = "update_branch") := fun hh => h (by rw [hh]; decide)
  have h16 : ¬(name = "push_files") := fun hh => h (by rw [hh]; decide)
  have h17 : ¬(name = "create_or_update_file") := fun hh => h (by rw [hh]; decide)
  unfold handleCallTool
  rw [if_neg h1, if_neg h2, if_neg h3, if_neg h4, if_neg h5, if_neg h6, if_neg h7,
    if_neg h8, if_neg h9, if_neg h10, if_neg h11, if_neg h12, if_neg h13, if_neg h14,
    if_neg h15, if_neg h16, if_neg h17]

/-- C8: when `AZURE_DEVOPS_ORG_URL` or `AZURE_DEVOPS_API_TOKEN` is absent
from the environment, module initialization of the server entry point fails
with the required-variables error before any server object is constructed:
the server never starts without credentials. -/
theorem C8_missing_credentials_fatal (orgUrl apiToken : Option String)
    (h : orgUrl = none ∨ apiToken = none) :
    moduleInit orgUrl apiToken =
      .error "AZURE_DEVOPS_ORG_URL and AZURE_DEVOPS_API_TOKEN environment variables are required" := by
  unfold moduleInit
  rcases h with h | h <;> subst h
  · exact if_pos (Or.inl (by decide))
  · exact if_pos (Or.inr (by decide))

/-- C8 witness: a concrete environment missing the organization URL. -/
theorem C8_missing_credentials_fatal_witness :
    moduleInit none (some "secret-token") =
      .error "AZURE_DEVOPS_ORG_URL and AZURE_DEVOPS_API_TOKEN environment variables are required" :=
  C8_missing_credentials_fatal none (some "secret-token") (Or.inl rfl)

/-- C6: an invocation whose tool name matches no catalog entry gets the fixed
`MethodNotFound` unknown-tool error, whatever arguments are supplied;
dispatch is by exact string equality against the catalog names. -/
theorem C6_unknown_tool_fixed_error (name : String) (args : Args) (b : Backend)
    (h : name ∉ catalogNames) :
    handleCallTool name args b =
      (.error (.mcpError .methodNotFound ("Unknown tool: " ++ name)), []) :=
  unknownTool_core name args b h

/-- C6 witness: `"get_project"` — a strict prefix of the catalog name
`"get_projects"` — is still rejected with the unknown-tool error: no partial
or fuzzy matching. -/
theorem C6_unknown_tool_fixed_error_witness :
    "get_project" ∉ catalogNames ∧
    handleCallTool "get_project" [("project_id", .str "P")] (fun _ => .ok .null) =
      (.error (.mcpError .methodNotFound "Unknown tool: get_project"), []) :=
  ⟨by decide, C6_unknown_tool_fixed_error "get_project" [("project_id", .str "P")]
    (fun _ => .ok .null) (by decide)⟩

/-- C5: for every catalog tool, omitting any required argument makes the
dispatcher produce the `InvalidParams` error enumerating that tool's
required argument names, with an empty request trace: no outbound HTTP call
is made, the validation short-circuits before the operation handler runs. -/
theorem C5_missing_required_arg_no_network (t : ToolDescriptor) (ht : t ∈ toolCatalog)
    (args : Args) (b : Backend) (k : String) (hk : k ∈ t.required)
    (habsent : args.lookupArg k = none) :
    handleCallTool t.name args b =
      (.error (.mcpError .invalidParams (mkRequiredMsg t.required)), []) :=
  invalidParams_core t ht args b
    ⟨k, hk, by unfold Args.truthyArg; rw [habsent]⟩

/-- C5 witness: `get_branches` without `repository_id` yields the
enumerating `InvalidParams` error and an empty request trace. -/
theorem C5_missing_required_arg_no_network_witness :
    (⟨"get_branches", ["project_id", "repository_id"]⟩ : ToolDescriptor) ∈ toolCatalog ∧
    handleCallTool "get_branches" [("project_id", .str "P")] (fun _ => .ok .null) =
      (.error (.mcpError .invalidParams "project_id and repository_id are required"), []) :=
  ⟨by decide,
   C5_missing_required_arg_no_network ⟨"get_branches", ["project_id", "repository_id"]⟩
     (by decide) [("project_id", .str "P")] (fun _ => .ok .null) "repository_id"
     (by decide) rfl⟩

/-- C9: the required-argument check tests truthiness, not key presence:
supplying a required argument with the empty string is rejected with exactly
the same `InvalidParams` error (and empty request trace) as any invocation
in which the key is absent. -/
theorem C9_empty_string_same_as_absent (t : ToolDescriptor) (ht : t ∈ toolCatalog)
    (k : String) (hk : k ∈ t.required) (args : Args) (b : Backend) :
    handleCallTool t.name ((k, .str "") :: args) b =
      (.error (.mcpError .invalidParams (mkRequiredMsg t.required)), []) ∧
    (∀ args2 : Args, args2.lookupArg k = none →
      handleCallTool t.name args2 b =
        (.error (.mcpError .invalidParams (mkRequiredMsg t.required)), [])) :=
  ⟨invalidParams_core t ht ((k, .str "") :: args) b
    ⟨k, hk, by simp [Args.truthyArg, Args.lookupArg, List.lookup, JsValue.truthy]⟩,
   fun args2 h2 => invalidParams_core t ht args2 b
    ⟨k, hk, by unfold Args.truthyArg; rw [h2]⟩⟩

/-- C9 witness: `create_branch` with `branch` present but equal to `""`
is rejected exactly like the invocation without `branch`. -/
theorem C9_empty_string_same_as_absent_witness :
    handleCallTool "create_branch"
        [("branch", .str ""), ("project_id", .str "P"), ("repository_id", .str "R")]
        (fun _ => .ok .null) =
      (.error (.mcpError .invalidParams "project_id, repository_id, and branch are required"), []) ∧
    handleCallTool "create_branch" [("project_id", .str "P"), ("repository_id", .str "R")]
        (fun _ => .ok .null) =
      (.error (.mcpError .invalidParams "project_id, repository_id, and branch are required"), []) :=
  ⟨(C9_empty_string_same_as_absent ⟨"create_branch", ["project_id", "repository_id", "branch"]⟩
      (by decide) "branch" (by decide)
      [("project_id", .str "P"), ("repository_id", .str "R")] (fun _ => .ok .null)).1,
   (C9_empty_string_same_as_absent ⟨"create_branch", ["project_id", "repository_id", "branch"]⟩
      (by decide) "branch" (by decide)
      [("project_id", .str "P"), ("repository_id", .str "R")] (fun _ => .ok .null)).2
     [("project_id", .str "P"), ("repository_id", .str "R")] rfl⟩

/-- C3 counterexample: `get_repositories` IS in the catalog, yet invoking it
with no arguments fails the request as a thrown `McpError` (`InvalidParams`),
not as a returned error result — so an unmatched tool name is not the only
fatally-failing condition. -/
theorem C3_matched_name_can_fail_fatally :
    "get_repositories" ∈ catalogNames ∧
    handleCallTool "get_repositories" [] (fun _ => .ok .null) =
      (.error (.mcpError .invalidParams "project_id is required"), []) :=
  ⟨by decide, by rw [handle_get_repositories]; exact toolBranchInline_missing rfl⟩

/-- C3 (amended): the thrown, transport-level failures of a tool invocation
are exactly the protocol `McpError`s (unmatched tool name, missing required
parameters) and non-platform exceptions; a platform failure (a raw axios
error or the local `AzureDevOpsError`) never escapes as a thrown error, and
an unmatched tool name always throws the fixed `MethodNotFound` error. -/
theorem C3_fatal_failure_shapes (name : String) (args : Args) (b : Backend) :
    (∀ e : Exn, (handleCallTool name args b).1 = .error e →
      (∃ c m, e = .mcpError c m) ∨ (∃ m, e = .other m)) ∧
    (name ∉ catalogNames →
      handleCallTool name args b =
        (.error (.mcpError .methodNotFound ("Unknown tool: " ++ name)), [])) := by
  refine ⟨?_, unknownTool_core name args b⟩
  intro e he
  by_cases h1 : name = "get_projects"
  · subst h1; rw [handle_get_projects] at he; exact toolBranchInline_error_shape he
  by_cases h2 : name = "get_repositories"
  · subst h2; rw [handle_get_repositories] at he; exact toolBranchInline_error_shape he
  by_cases h3 : name = "create_repository"
  · subst h3; rw [handle_create_repository] at he
    exact toolBranch_error_shape (fun b rm em => createRepository_not_axios _ _ _ b rm em) he
  by_cases h4 : name = "create_pull_request"
  · subst h4; rw [handle_create_pull_request] at he
    exact toolBranch_error_shape (fun b rm em => createPullRequest_not_axios _ _ _ _ _ _ b rm em) he
  by_cases h5 : name = "add_issue_comment"
  · subst h5; rw [handle_add_issue_comment] at he
    exact toolBranch_error_shape (fun b rm em => addIssueComment_not_axios _ _ _ _ b rm em) he
  by_cases h6 : name = "get_branches"
  · subst h6; rw [handle_get_branches] at he
    exact toolBranch_error_shape (fun b rm em => getBranches_not_axios _ _ b rm em) he
  by_cases h7 : name = "get_commits"
  · subst h7; rw [handle_get_commits] at he
    exact toolBranch_error_shape (fun b rm em => getCommits_not_axios _ _ _ b rm em) he
  by_cases h8 : name = "get_file_content"
  · subst h8; rw [handle_get_file_content] at he
    exact toolBranch_error_shape (fun b rm em => getFileContent_not_axios _ _ _ _ b rm em) he
  by_cases h9 : name = "update_file_content"
  · subst h9; rw [handle_update_file_content] at he
    exact toolBranch_error_shape (fun b rm em => createOrUpdateFile_not_axios _ _ _ _ _ _ b rm em) he
  by_cases h10 : name = "search_code"
  · subst h10; rw [handle_search_code] at he
    exact toolBranch_error_shape (fun b rm em => searchCode_not_axios _ _ _ _ _ b rm em) he
  by_cases h11 : name = "search_work_items"
  · subst h11; rw [handle_search_work_items] at he
    exact toolBranch_error_shape (fun b rm em => searchWorkItems_not_axios _ _ _ _ _ _ b rm em) he
  by_cases h12 : name = "search_users"
  · subst h12; rw [handle_search_users] at he
    exact toolBranch_error_shape (fun b rm em => searchUsers_not_axios _ _ b rm em) he
  by_cases h13 : name = "fork_repository"
  · subst h13; rw [handle_fork_repository] at he
    exact toolBranch_error_shape (fun b rm em => forkRepository_not_axios _ _ _ _ b rm em) he
  by_cases h14 : name = "create_branch"
  · subst h14; rw [handle_create_branch] at he
    exact toolBranch_error_shape (fun b rm em => createBranch_not_axios _ _ _ _ b rm em) he
  by_cases h15 : name = "update_branch"
  · subst h15; rw [handle_update_branch] at he
    exact toolBranch_error_shape (fun b rm em => updateBranch_not_axios _ _ _ _ _ b rm em) he
  by_cases h16 : name = "push_files"
  · subst h16; rw [handle_push_files] at he
    exact toolBranch_error_shape (fun b rm em => pushFiles_not_axios _ _ _ _ _ b rm em) he
  by_cases h17 : name = "create_or_update_file"
  · subst h17; rw [handle_create_or_update_file] at he
    exact toolBranch_error_shape (fun b rm em => createOrUpdateFile_not_axios _ _ _ _ _ _ b rm em) he
  have hmem : name ∉ catalogNames := by
    intro hmm
    simp only [catalogNames, toolCatalog, List.map_cons, List.map_nil, List.mem_cons,
      List.not_mem_nil, or_false] at hmm
    rcases hmm with rfl | rfl | rfl | rfl | rfl | rfl | rfl | rfl | rfl | rfl | rfl | rfl | rfl | rfl | rfl | rfl | rfl <;>
      first
      | exact h1 rfl | exact h2 rfl | exact h3 rfl | exact h4 rfl | exact h5 rfl
      | exact h6 rfl | exact h7 rfl | exact h8 rfl | exact h9 rfl | exact h10 rfl
      | exact h11 rfl | exact h12 rfl | exact h13 rfl | exact h14 rfl | exact h15 rfl
      | exact h16 rfl | exact h17 rfl
  rw [unknownTool_core name args b hmem] at he
  exact Or.inl ⟨.methodNotFound, "Unknown tool: " ++ name, (Except.error.inj he).symm⟩

/-- C3 (amended) witness: at a concrete invocation whose backend rejects the
request, the thrown-error classification and the unknown-name behavior hold. -/
theorem C3_fatal_failure_shapes_witness :
    ("nonexistent_tool" ∉ catalogNames →
      handleCallTool "nonexistent_tool" [] (fun _ => .axiosErr none "boom") =
        (.error (.mcpError .methodNotFound "Unknown tool: nonexistent_tool"), [])) ∧
    ("nonexistent_tool" ∉ catalogNames) :=
  ⟨(C3_fatal_failure_shapes "nonexistent_tool" [] (fun _ => .axiosErr none "boom")).2,
   by decide⟩

/-! Characterization lemmas for the `createBranch` pipeline. -/

theorem getDefaultBranch_run {p r : String} {b : Backend} {d : JsValue}
    (h : b (mkGet (repoUrl p r)) = .ok d) :
    getDefaultBranch p r b =
      (catchAxiosE (d.getField "defaultBranch"), [mkGet (repoUrl p r)]) := by
  unfold getDefaultBranch
  rw [catchAxios_eq]
  simp only [Op.bind_ok (axiosGet_ok h), Op.liftE_apply, List.append_nil]

theorem getDefaultBranch_err {p r : String} {b : Backend} {rm : Option String} {em : String}
    (h : b (mkGet (repoUrl p r)) = .axiosErr rm em) :
    getDefaultBranch p r b =
      (.error (.azureDevOpsError ("Azure DevOps API error: " ++ rm.getD em)),
       [mkGet (repoUrl p r)]) := by
  unfold getDefaultBranch
  rw [catchAxios_eq]
  simp only [Op.bind_error (axiosGet_err h)]
  rfl

theorem defaultSourceBranch_run {p r : String} {b : Backend} {dflt : String}
    (h : b (mkGet (repoUrl p r)) = .ok (.obj [("defaultBranch", .str dflt)])) :
    defaultSourceBranch p r b =
      (.ok (replaceOnceStr dflt "refs/heads/" ""), [mkGet (repoUrl p r)]) := by
  unfold defaultSourceBranch
  have hd : getDefaultBranch p r b =
      (.ok (.str dflt), [mkGet (repoUrl p r)]) := by
    rw [getDefaultBranch_run h]; rfl
  simp only [Op.bind_ok hd, Op.pure_apply, List.append_nil]

theorem defaultSourceBranch_err {p r : String} {b : Backend} {rm : Option String} {em : String}
    (h : b (mkGet (repoUrl p r)) = .axiosErr rm em) :
    defaultSourceBranch p r b =
      (.error (.azureDevOpsError ("Azure DevOps API error: " ++ rm.getD em)),
       [mkGet (repoUrl p r)]) := by
  unfold defaultSourceBranch
  simp only [Op.bind_error (getDefaultBranch_err h)]

theorem getLatestCommit_run {p r src : String} {b : Backend} {d2 c0 : JsValue}
    {cs : List JsValue} {cid : JsValue}
    (h2 : b (mkGet (latestCommitUrl p r src)) = .ok d2)
    (hv : d2.getField "value" = .ok (.arr (c0 :: cs)))
    (hc : c0.getField "commitId" = .ok cid) :
    getLatestCommit p r src b = (.ok cid, [mkGet (latestCommitUrl p r src)]) := by
  unfold getLatestCommit
  rw [catchAxios_eq]
  have h1 : Op.liftE (d2.getField "value") b = (.ok (.arr (c0 :: cs)), []) := by
    rw [Op.liftE_apply, hv]
  simp only [Op.bind_ok (axiosGet_ok h2), Op.bind_ok h1, Op.liftE_apply, List.append_nil]
  rw [if_neg]
  · have hidx : Op.liftE ((JsValue.arr (c0 :: cs)).index 0) b = (.ok c0, []) := by
      rw [Op.liftE_apply]; rfl
    simp only [Op.bind_ok hidx, Op.liftE_apply, List.append_nil, hc]
    rfl
  · simp [JsValue.truthy, JsValue.lengthEqZero]

theorem getLatestCommit_err {p r src : String} {b : Backend} {rm : Option String}
    {em : String} (h2 : b (mkGet (latestCommitUrl p r src)) = .axiosErr rm em) :
    getLatestCommit p r src b =
      (.error (.azureDevOpsError ("Azure DevOps API error: " ++ rm.getD em)),
       [mkGet (latestCommitUrl p r src)]) := by
  unfold getLatestCommit
  rw [catchAxios_eq]
  simp only [Op.bind_error (axiosGet_err h2)]
  rfl

theorem getLatestCommit_empty {p r src : String} {b : Backend} {d2 : JsValue}
    (h2 : b (mkGet (latestCommitUrl p r src)) = .ok d2)
    (hv : d2.getField "value" = .ok (.arr [])) :
    getLatestCommit p r src b =
      (.error (.azureDevOpsError ("No commits found for branch " ++ src)),
       [mkGet (latestCommitUrl p r src)]) := by
  unfold getLatestCommit
  rw [catchAxios_eq]
  have h1 : Op.liftE (d2.getField "value") b = (.ok (.arr []), []) := by
    rw [Op.liftE_apply, hv]
  simp only [Op.bind_ok (axiosGet_ok h2), Op.bind_ok h1, Op.liftE_apply, List.append_nil]
  rw [if_pos]
  · rfl
  · simp [JsValue.truthy, JsValue.lengthEqZero, List.isEmpty]

theorem createBranchBody_src_err {p r br : String} {srcOp : Op String} {b : Backend}
    {e : Exn} {t : List HttpRequest} (hsrc : srcOp b = (.error e, t)) :
    createBranchBody p r br srcOp b = (.error e, t) := by
  unfold createBranchBody
  simp only [Op.bind_error hsrc]

theorem createBranchBody_commit_err {p r br : String} {srcOp : Op String} {b : Backend}
    {src : String} {t1 : List HttpRequest} {e : Exn} {t2 : List HttpRequest}
    (hsrc : srcOp b = (.ok src, t1))
    (hlc : getLatestCommit p r src b = (.error e, t2)) :
    createBranchBody p r br srcOp b = (.error e, t1 ++ t2) := by
  unfold createBranchBody
  simp only [Op.bind_ok hsrc, Op.bind_error hlc]

theorem Op.liftE_bind {α β} (e : Except Exn α) (f : α → Op β) (b : Backend) :
    (Op.liftE e >>= f) b =
      (match e with
       | .ok a => f a b
       | .error ex => (.error ex, [])) := by
  rcases e with ex | a
  · rfl
  · show (match ((Except.ok a : Except Exn α), ([] : List HttpRequest)) with
      | (.ok a, t) =>
        match f a b with
        | (r, t2) => (r, t ++ t2)
      | (.error e, t) => (.error e, t)) = f a b
    rcases hf : f a b with ⟨r, t2⟩
    simp [hf]

theorem createBranchBody_post {p r : String} (br : String) {srcOp : Op String} {b : Backend}
    {src : String} {t1 : List HttpRequest} {cid : JsValue} {t2 : List HttpRequest}
    (hsrc : srcOp b = (.ok src, t1))
    (hlc : getLatestCommit p r src b = (.ok cid, t2)) :
    (createBranchBody p r br srcOp b).2 =
      t1 ++ t2 ++ [createBranchPost p r br cid] ∧
    (∀ rm em, b (createBranchPost p r br cid) = .axiosErr rm em →
      createBranchBody p r br srcOp b =
        (.error (.axios rm em), t1 ++ t2 ++ [createBranchPost p r br cid])) := by
  constructor
  · unfold createBranchBody
    rcases hb : b (createBranchPost p r br cid) with d | ⟨rm, em⟩
    · have hpost : axiosPost (refsUrl p r)
          (.obj [("name", .str ("refs/heads/" ++ br)), ("newObjectId", cid),
                 ("oldObjectId", .str zeroObjectId)]) b =
          (.ok d, [createBranchPost p r br cid]) := axiosPost_ok hb
      simp only [Op.bind_ok hsrc, Op.bind_ok hlc, Op.bind_ok hpost, Op.liftE_bind,
        Op.liftE_apply]
      rcases hg : d.getField "value" with ex | v <;>
        simp [hg, List.append_assoc, createBranchPost]
    · have hpost : axiosPost (refsUrl p r)
          (.obj [("name", .str ("refs/heads/" ++ br)), ("newObjectId", cid),
                 ("oldObjectId", .str zeroObjectId)]) b =
          (.error (.axios rm em), [createBranchPost p r br cid]) := axiosPost_err hb
      simp only [Op.bind_ok hsrc, Op.bind_ok hlc, Op.bind_error hpost]
      simp [List.append_assoc, createBranchPost]
  · intro rm em hb
    have hpost : axiosPost (refsUrl p r)
        (.obj [("name", .str ("refs/heads/" ++ br)), ("newObjectId", cid),
               ("oldObjectId", .str zeroObjectId)]) b =
        (.error (.axios rm em), [createBranchPost p r br cid]) := axiosPost_err hb
    unfold createBranchBody
    simp only [Op.bind_ok hsrc, Op.bind_ok hlc, Op.bind_error hpost]
    simp [List.append_assoc, createBranchPost]

/-- C1: `create_branch` without `from_branch`.
(a) If the default-branch read fails, the whole operation fails having issued
only that read — no ref-creation request.
(b) If the default-branch read succeeds and the latest-commit fetch fails,
the operation fails having issued only the two reads.
(bb) Likewise when the commit listing comes back empty.
(c) When both reads succeed, the issued requests are exactly: the
default-branch read, then the latest-commit fetch on that branch, then one
ref-creation POST naming `refs/heads/<branch>` with `newObjectId` the fetched
commit id and `oldObjectId` the forty-zero sentinel. -/
theorem C1_create_branch_round_trip (p r br : String) (b : Backend) :
    (∀ rm em, b (mkGet (repoUrl p r)) = .axiosErr rm em →
      createBranch p r br none b =
        (.error (.azureDevOpsError ("Azure DevOps API error: " ++ rm.getD em)),
         [mkGet (repoUrl p r)])) ∧
    (∀ dflt rm em,
      b (mkGet (repoUrl p r)) = .ok (.obj [("defaultBranch", .str dflt)]) →
      b (mkGet (latestCommitUrl p r (replaceOnceStr dflt "refs/heads/" ""))) =
        .axiosErr rm em →
      createBranch p r br none b =
        (.error (.azureDevOpsError ("Azure DevOps API error: " ++ rm.getD em)),
         [mkGet (repoUrl p r),
          mkGet (latestCommitUrl p r (replaceOnceStr dflt "refs/heads/" ""))])) ∧
    (∀ dflt d2,
      b (mkGet (repoUrl p r)) = .ok (.obj [("defaultBranch", .str dflt)]) →
      b (mkGet (latestCommitUrl p r (replaceOnceStr dflt "refs/heads/" ""))) = .ok d2 →
      d2.getField "value" = .ok (.arr []) →
      createBranch p r br none b =
        (.error (.azureDevOpsError
          ("No commits found for branch " ++ replaceOnceStr dflt "refs/heads/" "")),
         [mkGet (repoUrl p r),
          mkGet (latestCommitUrl p r (replaceOnceStr dflt "refs/heads/" ""))])) ∧
    (∀ dflt d2 c0 cid, ∀ cs : List JsValue,
      b (mkGet (repoUrl p r)) = .ok (.obj [("defaultBranch", .str dflt)]) →
      b (mkGet (latestCommitUrl p r (replaceOnceStr dflt "refs/heads/" ""))) = .ok d2 →
      d2.getField "value" = .ok (.arr (c0 :: cs)) →
      c0.getField "commitId" = .ok cid →
      (createBranch p r br none b).2 =
        [mkGet (repoUrl p r),
         mkGet (latestCommitUrl p r (replaceOnceStr dflt "refs/heads/" "")),
         createBranchPost p r br cid]) := by
  refine ⟨?_, ?_, ?_, ?_⟩
  · intro rm em h
    show catchAxios (createBranchBody p r br (defaultSourceBranch p r)) b = _
    rw [catchAxios_eq, createBranchBody_src_err (defaultSourceBranch_err h)]
    rfl
  · intro dflt rm em h1 h2
    show catchAxios (createBranchBody p r br (defaultSourceBranch p r)) b = _
    rw [catchAxios_eq,
      createBranchBody_commit_err (defaultSourceBranch_run h1) (getLatestCommit_err h2)]
    rfl
  · intro dflt d2 h1 h2 hv
    show catchAxios (createBranchBody p r br (defaultSourceBranch p r)) b = _
    rw [catchAxios_eq,
      createBranchBody_commit_err (defaultSourceBranch_run h1) (getLatestCommit_empty h2 hv)]
    rfl
  · intro dflt d2 c0 cid cs h1 h2 hv hc
    have h3 := (createBranchBody_post br (defaultSourceBranch_run h1)
      (getLatestCommit_run h2 hv hc)).1
    show (catchAxios (createBranchBody p r br (defaultSourceBranch p r)) b).2 = _
    rw [catchAxios_eq]
    simpa using h3

/-- A mock platform for the C1 round trip: default branch `refs/heads/main`,
one commit `abc123` on it, and a permissive refs endpoint. -/
def c1MockBackend : Backend := fun req =>
  if req.url = repoUrl "P" "R" then .ok (.obj [("defaultBranch", .str "refs/heads/main")])
  else if req.url = latestCommitUrl "P" "R" "main" then
    .ok (.obj [("value", .arr [.obj [("commitId", .str "abc123")]])])
  else .ok (.obj [("value", .arr [.obj [("name", .str "refs/heads/feature-x")]])])

/-- C1 witness: on the mock platform, `create_branch("P","R","feature-x")`
issues exactly the default-branch read, the commit fetch on `main`, and one
ref creation at the fetched commit with the zero sentinel. -/
theorem C1_create_branch_round_trip_witness :
    c1MockBackend (mkGet (repoUrl "P" "R")) =
      .ok (.obj [("defaultBranch", .str "refs/heads/main")]) ∧
    (createBranch "P" "R" "feature-x" none c1MockBackend).2 =
      [mkGet (repoUrl "P" "R"), mkGet (latestCommitUrl "P" "R" "main"),
       createBranchPost "P" "R" "feature-x" (.str "abc123")] :=
  ⟨rfl,
   (C1_create_branch_round_trip "P" "R" "feature-x" c1MockBackend).2.2.2
     "refs/heads/main" (.obj [("value", .arr [.obj [("commitId", .str "abc123")]])])
     (.obj [("commitId", .str "abc123")]) (.str "abc123") []
     (by rfl) (by rfl) (by rfl) (by rfl)⟩

/-- Characterization of `getBranches` when the platform rejects the listing:
the axios failure is rewrapped into the local platform error carrying the
response body message (falling back to the transport message). -/
theorem getBranches_err {p r : String} {b : Backend} {rm : Option String} {em : String}
    (h : b (mkGet (refsHeadsUrl p r)) = .axiosErr rm em) :
    getBranches p r b =
      (.error (.azureDevOpsError ("Azure DevOps API error: " ++ rm.getD em)),
       [mkGet (refsHeadsUrl p r)]) := by
  unfold getBranches
  rw [catchAxios_eq, axiosGet_err h]
  rfl

/-- C4: the error translator recovers exactly two failure shapes — a raw
axios error is rewrapped into the local platform error with the response
body `message` when present and the transport message otherwise, and a
pre-existing local platform error (like any other non-axios exception)
passes through unchanged.  End to end, a platform 404 on `get_branches`
whose body carries `message: "not found"` comes back as a returned error
result whose text contains `"not found"`, not as a thrown failure. -/
theorem C4_error_translator_contract :
    (∀ (body : Op JsValue) (b : Backend) (rm : Option String) (em : String)
      (t : List HttpRequest), body b = (.error (.axios rm em), t) →
      catchAxios body b =
        (.error (.azureDevOpsError ("Azure DevOps API error: " ++ rm.getD em)), t)) ∧
    (∀ (body : Op JsValue) (b : Backend) (m : String) (t : List HttpRequest),
      body b = (.error (.azureDevOpsError m), t) →
      catchAxios body b = (.error (.azureDevOpsError m), t)) ∧
    (∀ (body : Op JsValue) (b : Backend) (m : String) (t : List HttpRequest),
      body b = (.error (.other m), t) →
      catchAxios body b = (.error (.other m), t)) ∧
    (∀ (p r em : String) (b : Backend), p ≠ "" → r ≠ "" →
      b (mkGet (refsHeadsUrl p r)) = .axiosErr (some "not found") em →
      handleCallTool "get_branches" [("project_id", .str p), ("repository_id", .str r)] b =
        (.ok ⟨"Azure DevOps API error: " ++ ("Azure DevOps API error: " ++ "not found"), true⟩,
         [mkGet (refsHeadsUrl p r)])) := by
  refine ⟨?_, ?_, ?_, ?_⟩
  · intro body b rm em t h
    rw [catchAxios_eq, h]
    rfl
  · intro body b m t h
    rw [catchAxios_eq, h]
    rfl
  · intro body b m t h
    rw [catchAxios_eq, h]
    rfl
  · intro p r em b hp hr hb
    rw [handle_get_branches]
    have hmiss : ¬(Args.truthyArg [("project_id", .str p), ("repository_id", .str r)]
          "project_id" = false ∨
        Args.truthyArg [("project_id", .str p), ("repository_id", .str r)]
          "repository_id" = false) := by
      simp [Args.truthyArg, Args.lookupArg, List.lookup, JsValue.truthy, hp, hr]
    rw [toolBranch_run hmiss]
    have hop : getBranches
        (Args.strArg [("project_id", .str p), ("repository_id", .str r)] "project_id")
        (Args.strArg [("project_id", .str p), ("repository_id", .str r)] "repository_id") b =
        (.error (.azureDevOpsError ("Azure DevOps API error: " ++ "not found")),
         [mkGet (refsHeadsUrl p r)]) := getBranches_err hb
    rw [hop]

/-- C4 witness: each translation shape at a concrete throw, and the 404
scenario on a concrete backend. -/
theorem C4_error_translator_contract_witness :
    catchAxios (Op.throwE (.axios (some "not found") "Request failed with status code 404") : Op JsValue)
        (fun _ => .ok .null) =
      (.error (.azureDevOpsError ("Azure DevOps API error: " ++ "not found")), []) ∧
    catchAxios (Op.throwE (.azureDevOpsError "Branch main not found") : Op JsValue)
        (fun _ => .ok .null) =
      (.error (.azureDevOpsError "Branch main not found"), []) ∧
    catchAxios (Op.throwE (.other "TypeError: boom") : Op JsValue) (fun _ => .ok .null) =
      (.error (.other "TypeError: boom"), []) ∧
    handleCallTool "get_branches" [("project_id", .str "P"), ("repository_id", .str "R")]
        (fun _ => .axiosErr (some "not found") "Request failed with status code 404") =
      (.ok ⟨"Azure DevOps API error: " ++ ("Azure DevOps API error: " ++ "not found"), true⟩,
       [mkGet (refsHeadsUrl "P" "R")]) :=
  ⟨C4_error_translator_contract.1 _ (fun _ => .ok .null) (some "not found")
      "Request failed with status code 404" [] rfl,
   C4_error_translator_contract.2.1 _ (fun _ => .ok .null) "Branch main not found" [] rfl,
   C4_error_translator_contract.2.2.1 _ (fun _ => .ok .null) "TypeError: boom" [] rfl,
   C4_error_translator_contract.2.2.2 "P" "R" "Request failed with status code 404"
     (fun _ => .axiosErr (some "not found") "Request failed with status code 404")
     (by decide) (by decide) rfl⟩

/-- The single HTTP request a `get_file_content` invocation can issue. -/
def fileContentReq (args : Args) : HttpRequest :=
  mkGet (itemsUrl (args.strArg "project_id") (args.strArg "repository_id")
    (args.strArg "file_path") (args.strArg "branch"))

/-- C7: `get_file_content` is a deterministic, stateless function of its
arguments and the platform response: two invocations whose (possibly
stateful) platform gives the same response to the one file request yield
byte-identical results. -/
theorem C7_get_file_content_deterministic (args : Args) (b1 b2 : Backend)
    (h : b1 (fileContentReq args) = b2 (fileContentReq args)) :
    handleCallTool "get_file_content" args b1 = handleCallTool "get_file_content" args b2 := by
  rw [handle_get_file_content]
  by_cases hm : (args.truthyArg "project_id" = false ∨ args.truthyArg "repository_id" = false ∨
      args.truthyArg "file_path" = false ∨ args.truthyArg "branch" = false)
  · rw [toolBranch_missing hm, toolBranch_missing hm]
  · rw [toolBranch_run hm, toolBranch_run hm]
    have hg : getFileContent (args.strArg "project_id") (args.strArg "repository_id")
        (args.strArg "file_path") (args.strArg "branch") b1 =
      getFileContent (args.strArg "project_id") (args.strArg "repository_id")
        (args.strArg "file_path") (args.strArg "branch") b2 := by
      unfold fileContentReq at h
      unfold getFileContent
      rw [catchAxios_eq, catchAxios_eq]
      unfold axiosGet
      rw [h]
    rw [hg]

/-- C7 witness: the same request against the same mock twice. -/
theorem C7_get_file_content_deterministic_witness :
    (fun _ => .ok (.str "file body") : Backend) (fileContentReq
      [("project_id", .str "P"), ("repository_id", .str "R"),
       ("file_path", .str "a.txt"), ("branch", .str "main")]) =
    (fun _ => .ok (.str "file body") : Backend) (fileContentReq
      [("project_id", .str "P"), ("repository_id", .str "R"),
       ("file_path", .str "a.txt"), ("branch", .str "main")]) ∧
    handleCallTool "get_file_content"
      [("project_id", .str "P"), ("repository_id", .str "R"),
       ("file_path", .str "a.txt"), ("branch", .str "main")]
      (fun _ => .ok (.str "file body")) =
    handleCallTool "get_file_content"
      [("project_id", .str "P"), ("repository_id", .str "R"),
       ("file_path", .str "a.txt"), ("branch", .str "main")]
      (fun _ => .ok (.str "file body")) :=
  ⟨rfl,
   C7_get_file_content_deterministic
     [("project_id", .str "P"), ("repository_id", .str "R"),
      ("file_path", .str "a.txt"), ("branch", .str "main")]
     (fun _ => .ok (.str "file body")) (fun _ => .ok (.str "file body")) rfl⟩

/-- C10: when the ref-creation POST of `create_branch` fails with an axios
error whose response body carries `message` `dtl`, the handler rewraps it as
the local platform error `"Azure DevOps API error: " ++ dtl`, and the
dispatcher then prepends the same prefix again, so the client-visible text
is `"Azure DevOps API error: Azure DevOps API error: " ++ dtl`. -/
theorem C10_error_text_doubled (p r br dflt : String) (b : Backend) (d2 c0 : JsValue)
    (cs : List JsValue) (cid : JsValue) (dtl em : String)
    (h1 : b (mkGet (repoUrl p r)) = .ok (.obj [("defaultBranch", .str dflt)]))
    (h2 : b (mkGet (latestCommitUrl p r (replaceOnceStr dflt "refs/heads/" ""))) = .ok d2)
    (hv : d2.getField "value" = .ok (.arr (c0 :: cs)))
    (hc : c0.getField "commitId" = .ok cid)
    (hpost : b (createBranchPost p r br cid) = .axiosErr (some dtl) em)
    (hp : p ≠ "") (hr : r ≠ "") (hbr : br ≠ "") :
    createBranch p r br none b =
      (.error (.azureDevOpsError ("Azure DevOps API error: " ++ dtl)),
       [mkGet (repoUrl p r),
        mkGet (latestCommitUrl p r (replaceOnceStr dflt "refs/heads/" "")),
        createBranchPost p r br cid]) ∧
    handleCallTool "create_branch"
        [("project_id", .str p), ("repository_id", .str r), ("branch", .str br)] b =
      (.ok ⟨"Azure DevOps API error: " ++ ("Azure DevOps API error: " ++ dtl), true⟩,
       [mkGet (repoUrl p r),
        mkGet (latestCommitUrl p r (replaceOnceStr dflt "refs/heads/" "")),
        createBranchPost p r br cid]) := by
  have hbody := (createBranchBody_post br (defaultSourceBranch_run h1)
    (getLatestCommit_run h2 hv hc)).2 (some dtl) em hpost
  have hcb : createBranch p r br none b =
      (.error (.azureDevOpsError ("Azure DevOps API error: " ++ dtl)),
       [mkGet (repoUrl p r),
        mkGet (latestCommitUrl p r (replaceOnceStr dflt "refs/heads/" "")),
        createBranchPost p r br cid]) := by
    show catchAxios (createBranchBody p r br (defaultSourceBranch p r)) b = _
    rw [catchAxios_eq, hbody]
    rfl
  refine ⟨hcb, ?_⟩
  rw [handle_create_branch]
  have hmiss : ¬(Args.truthyArg
        [("project_id", .str p), ("repository_id", .str r), ("branch", .str br)]
        "project_id" = false ∨
      Args.truthyArg
        [("project_id", .str p), ("repository_id", .str r), ("branch", .str br)]
        "repository_id" = false ∨
      Args.truthyArg
        [("project_id", .str p), ("repository_id", .str r), ("branch", .str br)]
        "branch" = false) := by
    simp [Args.truthyArg, Args.lookupArg, List.lookup, JsValue.truthy, hp, hr, hbr]
  rw [toolBranch_run hmiss]
  have hop : createBranch
      (Args.strArg [("project_id", .str p), ("repository_id", .str r), ("branch", .str br)]
        "project_id")
      (Args.strArg [("project_id", .str p), ("repository_id", .str r), ("branch", .str br)]
        "repository_id")
      (Args.strArg [("project_id", .str p), ("repository_id", .str r), ("branch", .str br)]
        "branch")
      (Args.lookupArg [("project_id", .str p), ("repository_id", .str r), ("branch", .str br)]
        "from_branch") b =
      (.error (.azureDevOpsError ("Azure DevOps API error: " ++ dtl)),
       [mkGet (repoUrl p r),
        mkGet (latestCommitUrl p r (replaceOnceStr dflt "refs/heads/" "")),
        createBranchPost p r br cid]) := hcb
  rw [hop]

/-- A mock platform for C10: reads succeed, the ref-creation POST is
rejected with a body message. -/
def c10MockBackend : Backend := fun req =>
  if req.method = "POST" then
    .axiosErr (some "ref update rejected") "Request failed with status code 400"
  else if req.url = repoUrl "P" "R" then
    .ok (.obj [("defaultBranch", .str "refs/heads/main")])
  else .ok (.obj [("value", .arr [.obj [("commitId", .str "abc123")]])])

/-- C10 witness: the doubled prefix on the mock platform. -/
theorem C10_error_text_doubled_witness :
    handleCallTool "create_branch"
        [("project_id", .str "P"), ("repository_id", .str "R"), ("branch", .str "feature-x")]
        c10MockBackend =
      (.ok ⟨"Azure DevOps API error: " ++ ("Azure DevOps API error: " ++ "ref update rejected"),
            true⟩,
       [mkGet (repoUrl "P" "R"), mkGet (latestCommitUrl "P" "R" "main"),
        createBranchPost "P" "R" "feature-x" (.str "abc123")]) :=
  (C10_error_text_doubled "P" "R" "feature-x" "refs/heads/main" c10MockBackend
    (.obj [("value", .arr [.obj [("commitId", .str "abc123")]])])
    (.obj [("commitId", .str "abc123")]) [] (.str "abc123")
    "ref update rejected" "Request failed with status code 400"
    (by rfl) (by rfl) (by rfl) (by rfl) (by rfl)
    (by decide) (by decide) (by decide)).2

/-- For non-negative slice bounds, `Array.prototype.slice(a, a + b)` is the
page window: drop `a`, take `b`. -/
theorem jsSlice_nonneg (xs : List JsValue) (a b : Int) (ha : 0 ≤ a) (hb : 0 ≤ b) :
    jsSlice xs a (a + b) = (xs.drop a.toNat).take b.toNat := by
  unfold jsSlice
  rw [if_neg (by omega), if_neg (by omega)]
  rcases le_or_lt (xs.length : Int) a with hcase | hcase
  · have h1 : xs.drop a.toNat = [] := List.drop_eq_nil_of_le (by omega)
    rw [min_eq_right hcase, min_eq_right (by omega), h1]
    simp
  · rcases le_or_lt (a + b) (xs.length : Int) with hcase2 | hcase2
    · rw [min_eq_left (le_of_lt hcase), min_eq_left hcase2]
      have h2 : (a + b).toNat = a.toNat + b.toNat := by omega
      rw [h2, ← List.take_drop]
    · rw [min_eq_left (le_of_lt hcase), min_eq_right (by omega)]
      have hlen : (xs.drop a.toNat).length ≤ b.toNat := by
        simp only [List.length_drop]
        omega
      rw [List.take_of_length_le hlen]
      simp

/-- Characterization of `searchRepositories` on a listing that filters
cleanly: the full listing is fetched once, filtered first, and only then is
the page window sliced out of the filtered set. -/
theorem searchRepositories_run {p q : String} {page perPage : Int} {b : Backend}
    {d : JsValue} {repos flt : List JsValue}
    (h : b (mkGet (repositoriesUrl p)) = .ok d)
    (hv : d.getField "value" = .ok (.arr repos))
    (hf : jsFilter (repoMatches (strToLower q)) repos = .ok flt) :
    searchRepositories p q page perPage b =
      (.ok (.obj [("total_count", .num flt.length),
                  ("items", .arr (jsSlice flt ((page - 1) * perPage)
                    ((page - 1) * perPage + perPage))),
                  ("page", .num page), ("perPage", .num perPage),
                  ("totalPages", .num (mathCeilDiv flt.length perPage))]),
       [mkGet (repositoriesUrl p)]) := by
  unfold searchRepositories
  rw [catchAxios_eq]
  simp only [Op.bind_ok (axiosGet_ok h), Op.liftE_bind, hv, hf, Op.pure_apply,
    List.append_nil]
  rfl

/-- C2: `search_repositories` filters the full listing first (keeping exactly
the repositories whose name, or description when present, contains the query
case-insensitively) and only then slices the page window
`[(page-1)*perPage, (page-1)*perPage + perPage)` out of the filtered set,
reporting `total_count` as the filtered size and
`totalPages = ceil(total_count / perPage)`. -/
theorem C2_search_filters_then_paginates (p q : String) (page perPage : Int)
    (b : Backend) (d : JsValue) (repos flt : List JsValue)
    (h : b (mkGet (repositoriesUrl p)) = .ok d)
    (hv : d.getField "value" = .ok (.arr repos))
    (hf : jsFilter (repoMatches (strToLower q)) repos = .ok flt)
    (hpage : 1 ≤ page) (hper : 1 ≤ perPage) :
    searchRepositories p q page perPage b =
      (.ok (.obj [("total_count", .num flt.length),
                  ("items", .arr ((flt.drop ((page - 1) * perPage).toNat).take perPage.toNat)),
                  ("page", .num page), ("perPage", .num perPage),
                  ("totalPages", .num (mathCeilDiv flt.length perPage))]),
       [mkGet (repositoriesUrl p)]) := by
  rw [searchRepositories_run h hv hf,
    jsSlice_nonneg flt ((page - 1) * perPage) perPage
      (mul_nonneg (by omega) (by omega)) (by omega)]

/-- The 25 matching mock repositories of the C2 scenario. -/
def searchMockRepos : List JsValue :=
  (List.range 25).map fun i => .obj [("name", .str ("api-repo-" ++ toString i))]

/-- A mock platform whose repository listing is the 25 matching
repositories. -/
def searchMockBackend : Backend := fun _ => .ok (.obj [("value", .arr searchMockRepos)])

/-- C2 witness: over 25 matching repositories, `page = 2`, `perPage = 10`
returns items 11-20 of the filtered set, `total_count = 25` and
`totalPages = 3`. -/
theorem C2_search_filters_then_paginates_witness :
    jsFilter (repoMatches (strToLower "api")) searchMockRepos = .ok searchMockRepos ∧
    searchRepositories "P" "api" 2 10 searchMockBackend =
      (.ok (.obj [("total_count", .num 25),
                  ("items", .arr ((searchMockRepos.drop 10).take 10)),
                  ("page", .num 2), ("perPage", .num 10),
                  ("totalPages", .num 3)]),
       [mkGet (repositoriesUrl "P")]) :=
  ⟨by rfl,
   C2_search_filters_then_paginates "P" "api" 2 10 searchMockBackend
     (.obj [("value", .arr searchMockRepos)]) searchMockRepos searchMockRepos
     rfl rfl (by rfl) (by decide) (by decide)⟩
